import Mathlib

/-!
Verification of the HiLabs-AIQuest contract-classification core
(`src/Backend/compare_clauses.py`) against its natural-language specification.

The Python code is shallowly embedded:
* pure string algorithms (Levenshtein DP, Jaro/Jaro-Winkler, n-grams,
  keyword scores, the classifier cascade) are translated into executable
  Lean definitions over `String` / `List Char`, with Python floats modelled
  as exact rationals `ℚ`;
* the external capabilities used by the code — Python's `re` engine,
  `difflib.SequenceMatcher.ratio`, and the sentence-embedding model with
  its cosine similarity — are modelled as explicit oracle structures
  (`PyStdlib`, `EmbedBackend`) that are quantified over in theorems, and
  instantiated with finite, hand-checked tables in concrete scenarios.
-/

namespace Spec2Proof

/-! ## Definitions: shallow embedding of compare_clauses.py -/

/-! ## Python string primitives (ASCII inputs) -/

/-- Python `str.lower()` restricted to ASCII (all texts used are ASCII). -/
def pyLower (s : String) : String := ⟨s.data.map Char.toLower⟩

/-- Python whitespace characters recognised by `str.strip()` / `str.split()`. -/
def isPyWs (c : Char) : Bool :=
  c = ' ' || c = '\t' || c = '\n' || c = '\r' || c = Char.ofNat 11 || c = Char.ofNat 12

/-- Python `str.strip()`. -/
def pyStrip (s : String) : String :=
  ⟨((s.data.dropWhile isPyWs).reverse.dropWhile isPyWs).reverse⟩

/-- Python substring membership `needle in hay` on lists of characters. -/
def listContainsSub (hay needle : List Char) : Bool :=
  hay.tails.any (fun t => needle.isPrefixOf t)

/-- Python substring membership `needle in hay` for strings. -/
def strContains (hay needle : String) : Bool := listContainsSub hay.data needle.data

/-- Python `str.split()` (split on whitespace runs, dropping empty pieces). -/
def pySplitWsAux : List Char → List Char → List String
  | [], acc => if acc.isEmpty then [] else [⟨acc.reverse⟩]
  | c :: cs, acc =>
    if isPyWs c then
      (if acc.isEmpty then pySplitWsAux cs [] else ⟨acc.reverse⟩ :: pySplitWsAux cs [])
    else pySplitWsAux cs (c :: acc)

/-- Python `str.split()` on a string. -/
def pySplitWs (s : String) : List String := pySplitWsAux s.data []

/-- Insert into a `<`-sorted list of strings (ascending, stable). -/
def strInsert (x : String) : List String → List String
  | [] => [x]
  | y :: ys => if y < x then y :: strInsert x ys else x :: y :: ys

/-- Python `sorted(...)` on strings (code-point lexicographic, ASCII here). -/
def strSort : List String → List String
  | [] => []
  | x :: xs => strInsert x (strSort xs)

/-- Python slice `text[start:stop]` on a list of characters. -/
def pySlice (l : List Char) (start stop : ℕ) : List Char :=
  (l.drop start).take (stop - start)

/-! ## Levenshtein: the source DP and the textbook reference

`FuzzyMatcher._levenshtein_similarity` (compare_clauses.py lines 180–214)
fills the classic `(len1+1) × (len2+1)` table row by row.  We embed the
loop as `levLoop` (each new row is produced from the previous one by
`levNextAux`, carrying the up-left/left/up cells exactly as the Python
inner loop does) and separately give the textbook recursive edit distance
`levRef`, the definition the spec describes ("standard dynamic-programming
edit distance (insert/delete/substitute cost 1)"); `levDistance_eq_levRef`
below proves the embedded table computes it. -/

/-- Modelled from the spec: textbook Levenshtein edit distance with unit
insert/delete/substitute costs, recursing on the heads of both lists. -/
def levRef : List Char → List Char → ℕ
  | [], ys => ys.length
  | _ :: xs, [] => xs.length + 1
  | x :: xs, y :: ys =>
    if x = y then levRef xs ys
    else 1 + min (levRef xs (y :: ys)) (min (levRef (x :: xs) ys) (levRef xs ys))
termination_by a b => a.length + b.length
decreasing_by all_goals simp +arith [List.length]

/-- Inner loop of the source DP: build the tail of row `i` from the tail of
row `i-1` (`p :: ps`), the up-left cell `diag` and the left cell `left`;
`cur := dist[i-1][j-1]` if the characters agree, else
`1 + min(dist[i-1][j], dist[i][j-1], dist[i-1][j-1])` — exactly the Python
assignment at lines 200–207. -/
def levNextAux (c : Char) : List Char → List ℕ → ℕ → ℕ → List ℕ
  | [], _, _, _ => []
  | _ :: _, [], _, _ => []
  | b :: bs, p :: ps, diag, left =>
    (if c = b then diag else 1 + min p (min left diag)) ::
      levNextAux c bs ps p (if c = b then diag else 1 + min p (min left diag))

/-- Row `i` of the DP table: `dist[i][0] = i`, then the inner loop. -/
def levNextRow (c : Char) (s2 : List Char) (prev : List ℕ) (i : ℕ) : List ℕ :=
  i :: levNextAux c s2 prev.tail (prev.headD 0) i

/-- Outer loop of the source DP over the characters of `s1`. -/
def levLoop (s2 : List Char) : List Char → List ℕ → ℕ → List ℕ
  | [], prev, _ => prev
  | c :: cs, prev, i => levLoop s2 cs (levNextRow c s2 prev (i + 1)) (i + 1)

/-- The final DP row; the initial row is `dist[0][j] = j`. -/
def levFinalRow (s1 s2 : List Char) : List ℕ :=
  levLoop s2 s1 (List.range (s2.length + 1)) 0

/-- Embeds `dist[len1][len2]` of the source DP. -/
def levDistance (s1 s2 : List Char) : ℕ := (levFinalRow s1 s2).getLastD 0

/-- Embeds `FuzzyMatcher._levenshtein_similarity` (lines 180–214).  Any empty input
returns `0.0` at line 182; the `max_len == 0` branch at line 211 is
consequently unreachable but is kept for fidelity. -/
def levenshtein_similarity (s1 s2 : String) : ℚ :=
  if s1.isEmpty || s2.isEmpty then 0
  else
    let maxLen := max s1.length s2.length
    if maxLen = 0 then 1
    else 1 - (levDistance s1.data s2.data : ℚ) / (maxLen : ℚ)

/-- Tail (entries `j ≥ |u| + 1`) of the DP row for the `s1`-prefix `t`,
expressed through `levRef`. -/
def specTail (t : List Char) : List Char → List Char → List ℕ
  | _, [] => []
  | u, b :: bs => levRef t (u ++ [b]) :: specTail t (u ++ [b]) bs

/-- The full spec row for prefix `t` against all prefixes of `s2`. -/
def specRow (s2 t : List Char) : List ℕ := t.length :: specTail t [] s2

/-! ## Jaro and Jaro-Winkler similarity

`FuzzyMatcher._jaro_similarity` (lines 235–284) and
`FuzzyMatcher._jaro_winkler_similarity` (lines 216–233). -/

/-- Match window: `max(len1,len2) // 2 - 1`, clamped up to `1` (lines 245–247).
ℕ subtraction truncates exactly where the Python value would be negative, and
the clamp makes the two agree. -/
def jaroWindow (l1 l2 : ℕ) : ℕ := max (max l1 l2 / 2 - 1) 1

/-- Out-of-range defaults for `getD`; all accesses are in range, and the two
defaults are distinct so no spurious equality can arise. -/
def charD0 : Char := Char.ofNat 0

def charD1 : Char := Char.ofNat 1

/-- Inner scan of the match loop (lines 260–266): the first `j` in
`[j, j+fuel)` with `¬s2_matches[j] ∧ s1[i] = s2[j]`. -/
def jScan (s1 s2 : List Char) (i : ℕ) (s2m : List Bool) : ℕ → ℕ → Option ℕ
  | _, 0 => none
  | j, fuel + 1 =>
    if s2m.getD j true = false ∧ s1.getD i charD0 = s2.getD j charD1 then some j
    else jScan s1 s2 i s2m (j + 1) fuel

/-- Body of the match loop `for i in range(len1)` (lines 256–266). -/
def jaroStep (s1 s2 : List Char) (st : List Bool × List Bool × ℕ) (i : ℕ) :
    List Bool × List Bool × ℕ :=
  let w := jaroWindow s1.length s2.length
  let start := i - w
  let fin := min (i + w + 1) s2.length
  match jScan s1 s2 i st.2.1 start (fin - start) with
  | none => st
  | some j => (st.1.set i true, st.2.1.set j true, st.2.2 + 1)

/-- The full match loop, returning `(s1_matches, s2_matches, matches)`. -/
def jaroMatchLoop (s1 s2 : List Char) : List Bool × List Bool × ℕ :=
  (List.range s1.length).foldl (jaroStep s1 s2)
    (List.replicate s1.length false, List.replicate s2.length false, 0)

/-- The `while not s2_matches[k]: k += 1` walk (lines 276–277); the fuel
`s2m.length - k` suffices because the match loop leaves equal numbers of set
entries in both masks, so the Python loop never runs off the end. -/
def nextTrueGo (s2m : List Bool) : ℕ → ℕ → ℕ
  | k, 0 => k
  | k, fuel + 1 => if s2m.getD k false then k else nextTrueGo s2m (k + 1) fuel

/-- First index `≥ k` whose mask entry is set. -/
def nextTrue (s2m : List Bool) (k : ℕ) : ℕ := nextTrueGo s2m k (s2m.length - k)

/-- Body of the transposition loop (lines 272–280); state is `(k, t)`. -/
def transStep (s1 s2 : List Char) (s1m s2m : List Bool) (st : ℕ × ℕ) (i : ℕ) : ℕ × ℕ :=
  if s1m.getD i false then
    let k := nextTrue s2m st.1
    (k + 1, if s1.getD i charD0 = s2.getD k charD1 then st.2 else st.2 + 1)
  else st

/-- The transposition count of the Jaro algorithm. -/
def jaroTranspositions (s1 s2 : List Char) (s1m s2m : List Bool) : ℕ :=
  ((List.range s1.length).foldl (transStep s1 s2 s1m s2m) (0, 0)).2

/-- Embeds `FuzzyMatcher._jaro_similarity` (lines 235–284). -/
def jaro_similarity (s1 s2 : List Char) : ℚ :=
  if s1.length = 0 ∧ s2.length = 0 then 1
  else if s1.length = 0 ∨ s2.length = 0 then 0
  else
    let res := jaroMatchLoop s1 s2
    let m := res.2.2
    if m = 0 then 0
    else
      let t := jaroTranspositions s1 s2 res.1 res.2.1
      ((m : ℚ) / (s1.length : ℚ) + (m : ℚ) / (s2.length : ℚ) +
        ((m : ℚ) - (t : ℚ) / 2) / (m : ℚ)) / 3

/-- Common-prefix length, at most 4 (lines 225–230). -/
def jaroPfxGo (s1 s2 : List Char) : ℕ → ℕ → ℕ
  | _, 0 => 0
  | i, fuel + 1 =>
    if s1.getD i charD0 = s2.getD i charD1 then 1 + jaroPfxGo s1 s2 (i + 1) fuel else 0

/-- Length of the common prefix used by the Winkler boost. -/
def jaroPfxLen (s1 s2 : List Char) : ℕ :=
  jaroPfxGo s1 s2 0 (min (min s1.length s2.length) 4)

/-- Embeds `FuzzyMatcher._jaro_winkler_similarity` (lines 216–233):
`jaro + prefix_len * 0.1 * (1 - jaro)`, `0.0` when either input is empty. -/
def jaro_winkler_similarity (s1 s2 : String) : ℚ :=
  if s1.isEmpty || s2.isEmpty then 0
  else
    let j := jaro_similarity s1.data s2.data
    j + (jaroPfxLen s1.data s2.data : ℚ) * (1 / 10) * (1 - j)

/-! ## External capability oracles

The code relies on two Python standard-library capabilities that are
external to the repository: the `re` regular-expression engine and
`difflib.SequenceMatcher.ratio`.  They are modelled as an explicit oracle
structure threaded through every embedded function; theorems quantify over
the oracle, and concrete scenarios instantiate it with finite tables whose
entries were each checked against CPython's `re`/`difflib` behaviour. -/

structure PyStdlib where
  /-- `re.sub(pattern, repl, text[, flags=IGNORECASE])`. -/
  sub : (pattern repl : String) → (ignorecase : Bool) → (text : String) → String
  /-- `re.search(pattern, text[, flags])`, returning `m.group()` of the first
  match.  The two flags are `re.IGNORECASE` and `re.MULTILINE`. -/
  search : (pattern : String) → (ignorecase multiline : Bool) → (text : String) → Option String
  /-- `re.findall(pattern, text[, flags=IGNORECASE])`; an item stands for one
  match (a multi-group match tuple is represented as one opaque string). -/
  findall : (pattern : String) → (ignorecase : Bool) → (text : String) → List String
  /-- `re.split(pattern, text)`. -/
  split : (pattern : String) → (text : String) → List String
  /-- `re.match(pattern, text)` truthiness (anchored at the start). -/
  reMatch : (pattern : String) → (text : String) → Bool
  /-- The one grouped search of the analyzer,
  `re.search(r"(\d+(?:\.\d+)?)\s*%\s*of\s*(medicare|medicaid)", text, re.IGNORECASE)`,
  returning `(group(1), group(2))`. -/
  searchPctOf : (text : String) → Option (String × String)
  /-- `difflib.SequenceMatcher(None, a, b).ratio()`. -/
  ratio : String → String → ℚ

/-- Python `re.escape` on the ASCII phrases used by the synonym table:
word characters kept, everything else preceded by a backslash. -/
def pyReEscape (s : String) : String :=
  ⟨s.data.foldr (fun c acc =>
    if c.isAlphanum || c = '_' then c :: acc else '\\' :: c :: acc) []⟩

/-! ## FuzzyMatcher (compare_clauses.py lines 20–430) -/

/-- Embeds `FuzzyMatcher.legal_synonyms` (lines 49–62), in dict insertion order. -/
def legal_synonyms : List (String × List String) :=
  [("shall", ["will", "must", "should", "is required to"]),
   ("may", ["can", "is permitted to", "has the option to"]),
   ("prior to", ["before", "preceding", "in advance of"]),
   ("subsequent to", ["after", "following"]),
   ("pursuant to", ["according to", "in accordance with", "under"]),
   ("notwithstanding", ["despite", "regardless of", "even though"]),
   ("provided that", ["on condition that", "if", "as long as"]),
   ("in the event", ["if", "when", "should"]),
   ("compensation", ["payment", "reimbursement", "remuneration"]),
   ("agreement", ["contract", "arrangement", "understanding"]),
   ("party", ["participant", "signatory", "entity"]),
   ("terms", ["conditions", "provisions", "stipulations"])]

/-- Embeds `FuzzyMatcher._preprocess_text` (lines 152–166). -/
def fm_preprocess (px : PyStdlib) (text : String) : String :=
  let t := pyLower text
  let t := px.sub "\\s+" " " false t
  let t := px.sub "[^\\w\\s\\.\\?\\!]" " " false t
  let t := px.sub "\\s+" " " false t
  pyStrip t

/-- Embeds `FuzzyMatcher._normalize_synonyms` (lines 168–178). -/
def fm_normalize_synonyms (px : PyStdlib) (text : String) : String :=
  legal_synonyms.foldl (fun t p =>
    p.2.foldl (fun t syn => px.sub ("\\b" ++ pyReEscape syn ++ "\\b") p.1 true t) t) text

/-- Embeds `FuzzyMatcher._token_sort_ratio` (lines 286–297). -/
def fm_token_sort_ratio (px : PyStdlib) (s1 s2 : String) : ℚ :=
  px.ratio (String.intercalate " " (strSort (pySplitWs s1)))
    (String.intercalate " " (strSort (pySplitWs s2)))

/-- Embeds `FuzzyMatcher._sequence_similarity` (lines 299–301). -/
def fm_sequence_similarity (px : PyStdlib) (s1 s2 : String) : ℚ := px.ratio s1 s2

/-- Embeds `FuzzyMatcher._generate_ngrams` (lines 322–335): the set of character
`n`-grams and word `n`-grams, as a duplicate-free list.  `List.range`
applied to the truncated `len + 1 - n` yields exactly Python's
`range(len - n + 1)`. -/
def generate_ngrams (t : String) (n : ℕ) : List String :=
  let cgrams := (List.range (t.length + 1 - n)).map
    (fun i => (⟨pySlice t.data i (i + n)⟩ : String))
  let ws := pySplitWs t
  let wgrams := (List.range (ws.length + 1 - n)).map
    (fun i => String.intercalate " " ((ws.drop i).take n))
  (cgrams ++ wgrams).dedup

/-- Embeds `FuzzyMatcher._ngram_similarity` (lines 303–320). -/
def fm_ngram_similarity (px : PyStdlib) (s1 s2 : String) (n : ℕ) : ℚ :=
  if s1.length < n ∨ s2.length < n then fm_sequence_similarity px s1 s2
  else
    let g1 := generate_ngrams s1 n
    let g2 := generate_ngrams s2 n
    if g1.isEmpty ∨ g2.isEmpty then 0
    else
      let inter := (g1.filter (fun x => g2.contains x)).length
      let uni := (g1 ++ g2.filter (fun x => !g1.contains x)).length
      if 0 < uni then (inter : ℚ) / (uni : ℚ) else 0

/-- Embeds `FuzzyMatcher._check_structural_similarity` (lines 337–374).
`attribute_name` is accepted and ignored, as in the source. -/
def fm_structural (px : PyStdlib) (contract_text template_text _attribute_name : String) : ℚ :=
  let cpar : ℤ := (px.split "\\n\\s*\\n" contract_text).length
  let tpar : ℤ := (px.split "\\n\\s*\\n" template_text).length
  let s : ℚ := 0
  let s := if cpar = tpar then s + 3 / 10
    else if (cpar - tpar).natAbs ≤ 2 then s + 1 / 10 else s
  let csen : ℤ := (px.split "[.!?]+" contract_text).length
  let tsen : ℤ := (px.split "[.!?]+" template_text).length
  let s := if (csen - tsen).natAbs ≤ 2 then s + 1 / 5 else s
  let cnum := (px.findall "\\d+(?:\\.\\d+)?%?" false contract_text).length
  let tnum := (px.findall "\\d+(?:\\.\\d+)?%?" false template_text).length
  let s := if cnum = tnum then s + 1 / 5 else s
  let csec := (px.findall "(?:section|article|clause)\\s*\\d+" true contract_text).length
  let tsec := (px.findall "(?:section|article|clause)\\s*\\d+" true template_text).length
  let s := if csec = tsec then s + 3 / 10 else s
  min 1 s

/-- Approximation of Python's `"%.2f"`-style formatting (`f"{x:.2f}"`), used
only inside explanation strings; rounds half away from zero.  No claim
depends on the digits produced. -/
def fmtQ2 (q : ℚ) : String :=
  let n : ℤ := ⌊q * 100 + 1 / 2⌋
  let sign := if n < 0 then "-" else ""
  let m := n.natAbs
  sign ++ toString (m / 100) ++ "." ++ (if m % 100 < 10 then "0" else "") ++ toString (m % 100)

/-- Python `max(scores.items(), key=lambda x: x[1])`: the first maximal
entry of a non-empty association list. -/
def firstMax (l : List (String × ℚ)) : String × ℚ :=
  match l with
  | [] => ("", 0)
  | x :: xs => xs.foldl (fun best p => if best.2 < p.2 then p else best) x

/-- Dict lookup with default, Python `scores.get(name, 0)`. -/
def scoreGet (l : List (String × ℚ)) (k : String) : ℚ :=
  ((l.find? (fun p => p.1 == k)).map Prod.snd).getD 0

/-- Embeds `FuzzyMatcher._generate_explanation` (lines 398–430). -/
def fm_generate_explanation (scores : List (String × ℚ))
    (structure_bonus final_score : ℚ) : String :=
  let e1 :=
    if 9 / 10 ≤ final_score then
      "Very high similarity - likely the same content with minor variations"
    else if 8 / 10 ≤ final_score then
      "High similarity - same structure with some wording differences"
    else if 7 / 10 ≤ final_score then
      "Moderate similarity - similar content but notable differences"
    else "Low similarity - significant differences in content or structure"
  let best := firstMax scores
  let es := [e1, "Best match: " ++ best.1 ++ " (" ++ fmtQ2 best.2 ++ ")"]
  let es := if 1 / 2 < structure_bonus then es ++ ["Strong structural similarity"]
    else if 1 / 5 < structure_bonus then es ++ ["Some structural similarity"] else es
  let es := if scoreGet scores "sequence" < scoreGet scores "token_sort" then
    es ++ ["Content is similar but reordered"] else es
  let es := if 4 / 5 < scoreGet scores "ngram" then
    es ++ ["Many common phrases detected"] else es
  String.intercalate "; " es

/-- The diagnostic payload of `FuzzyMatcher.match` (lines 131–148): the five
sub-scores, final score, structure bonus and the four length statistics.
The `best_matching_segments` entry is a purely diagnostic list of text
snippets and is not modelled. -/
structure FuzzyDetails where
  individual_scores : List (String × ℚ)
  final_score : ℚ
  structure_bonus : ℚ
  contract_len : ℕ
  template_len : ℕ
  contract_processed_len : ℕ
  template_processed_len : ℕ
deriving DecidableEq

/-- Embeds `FuzzyMatcher.match` (lines 64–150): weighted combination of the five
similarity scores (weights 0.25/0.25/0.20/0.15/0.15), plus at most 10% of
the structural bonus, capped at 1. -/
def fm_match (px : PyStdlib) (contract_text template_text attribute_name : String) :
    ℚ × FuzzyDetails × String :=
  let contract_processed := fm_preprocess px contract_text
  let template_processed := fm_preprocess px template_text
  let cn := fm_normalize_synonyms px contract_processed
  let tn := fm_normalize_synonyms px template_processed
  let sLev := levenshtein_similarity cn tn
  let sJw := jaro_winkler_similarity cn tn
  let sTs := fm_token_sort_ratio px cn tn
  let sSeq := fm_sequence_similarity px cn tn
  let sNg := fm_ngram_similarity px cn tn 3
  let scores := [("levenshtein", sLev), ("jaro_winkler", sJw), ("token_sort", sTs),
    ("sequence", sSeq), ("ngram", sNg)]
  let final0 := sLev * (1 / 4) + sJw * (1 / 4) + sTs * (1 / 5) + sSeq * (3 / 20) +
    sNg * (3 / 20)
  let bonus := fm_structural px contract_text template_text attribute_name
  let final := min 1 (final0 + bonus * (1 / 10))
  let expl := fm_generate_explanation scores bonus final
  (final,
   { individual_scores := scores
     final_score := final
     structure_bonus := bonus
     contract_len := contract_text.length
     template_len := template_text.length
     contract_processed_len := contract_processed.length
     template_processed_len := template_processed.length },
   expl)

/-! ## PatternMatcher (compare_clauses.py lines 449–864) -/

/-- Embeds `structural_patterns["section_numbering"]` (lines 461–466). -/
def section_numbering_patterns : List String :=
  ["\\d+\\.\\d+(?:\\.\\d+)?", "[A-Z]\\.\\s*\\d+", "Article\\s+[IVX]+", "Section\\s+\\d+"]

/-- Embeds `structural_patterns["bullet_points"]` (lines 467–472). -/
def bullet_point_patterns : List String :=
  ["[•·▪▫◦‣⁃]\\s*", "\\([a-z]\\)", "\\d+\\)", "[a-z]\\)"]

/-- Embeds `structural_patterns["legal_references"]` (lines 473–480). -/
def legal_reference_patterns : List String :=
  ["pursuant to", "in accordance with", "subject to", "notwithstanding",
   "hereinafter", "whereas"]

/-- Embeds `structural_patterns["date_patterns"]` (lines 481–485). -/
def date_patterns : List String :=
  ["\\d\x7b1,2\x7d/\\d\x7b1,2\x7d/\\d\x7b2,4\x7d",
   "\\d\x7b1,2\x7d-\\d\x7b1,2\x7d-\\d\x7b2,4\x7d",
   "[A-Za-z]+\\s+\\d\x7b1,2\x7d,?\\s+\\d\x7b4\x7d"]

/-- Embeds `structural_patterns["monetary_patterns"]` (lines 486–491). -/
def monetary_patterns : List String :=
  ["\\$\\d+(?:,\\d\x7b3\x7d)*(?:\\.\\d\x7b2\x7d)?", "\\d+(?:\\.\\d+)?%",
   "percent", "percentage"]

/-- Embeds `structural_patterns["time_periods"]` (lines 492–497). -/
def time_period_patterns : List String :=
  ["\\d+\\s*(?:days?|months?|years?)",
   "(?:thirty|sixty|ninety)\\s*\\(\\d+\\)\\s*days?",
   "calendar\\s+(?:days?|months?|years?)",
   "business\\s+(?:days?|months?|years?)"]

/-- Embeds `PatternMatcher.attribute_patterns` (lines 501–561):
attribute name ↦ (required_elements, structure_patterns). -/
def attribute_patterns : List (String × (List String × List String)) :=
  [("Medicaid Timely Filing",
    (["medicaid", "(?:timely\\s+filing|submission.*?claims)", "\\d+\\s*(?:days?|months?)"],
     ["submission\\s+and\\s+adjudication", "claims.*?submitted", "within.*?days"])),
   ("Medicare Timely Filing",
    (["medicare", "(?:timely\\s+filing|submission.*?claims)", "\\d+\\s*(?:days?|months?)"],
     ["submission.*?medicare.*?claims", "claims.*?submitted", "within.*?days"])),
   ("No Steerage/SOC",
    (["(?:networks?|panels?)", "provider"],
     ["networks\\s+and\\s+provider\\s+panels", "standard\\s+of\\s+care", "steerage"])),
   ("Medicaid Fee Schedule",
    (["medicaid", "(?:fee\\s+schedule|reimbursement|compensation)"],
     ["fee\\s+schedule", "reimbursement.*?rate",
      "(?:professional\\s+services|facility\\s+services)",
      "\\d+(?:\\.\\d+)?%.*?(?:medicare|medicaid)"])),
   ("Medicare Fee Schedule",
    (["medicare", "(?:fee\\s+schedule|reimbursement|compensation)"],
     ["fee\\s+schedule", "reimbursement.*?rate", "medicare\\s+advantage",
      "\\d+(?:\\.\\d+)?%.*?medicare"]))]

/-- Embeds `PatternMatcher._normalize_text` (lines 643–651). -/
def pm_normalize_text (px : PyStdlib) (text : String) : String :=
  let t := pyLower text
  let t := px.sub "\\s+" " " false t
  let t := px.sub "[^\\w\\s\\.\\,\\;\\:\\-\\(\\)\\[\\]\\\x7b\\\x7d\\/\\%\\$]" "" false t
  pyStrip t

/-- Embeds `table_indicators` of `PatternMatcher._has_table_structure` (lines 794–799). -/
def table_indicators : List String :=
  ["\\|", "\\t.*\\t", "(?:^|\\n)\\s*\\w+\\s+\\w+\\s+\\w+\\s*(?:\\n|$)",
   "(?:Rate|Fee|Schedule|Percentage).*?(?:\\d+%|\\$\\d+)"]

/-- Embeds `PatternMatcher._has_table_structure` (lines 791–810): some table
indicator matches (searched with `re.MULTILINE`), or more than three
monetary/percentage tokens occur. -/
def pm_has_table_structure (px : PyStdlib) (text : String) : Bool :=
  table_indicators.any (fun p => (px.search p false true text).isSome) ||
    3 < (px.findall
      "(?:\\$\\d+(?:,\\d\x7b3\x7d)*(?:\\.\\d\x7b2\x7d)?|\\d+(?:\\.\\d+)?%)" false text).length

/-- The pattern-family hits extracted from one text (lines 653–699). -/
structure PatternsFound where
  sections : List String
  bullets : List String
  legal_terms : List String
  dates : List String
  monetary : List String
  time_periods : List String
  tables : List String
deriving DecidableEq

/-- Embeds `PatternMatcher._extract_patterns` (lines 653–699); `attribute_name` is
accepted and ignored, as in the source. -/
def pm_extract_patterns (px : PyStdlib) (text _attribute_name : String) : PatternsFound :=
  { sections := section_numbering_patterns.flatMap (fun p => px.findall p true text)
    bullets := bullet_point_patterns.flatMap (fun p => px.findall p false text)
    legal_terms := legal_reference_patterns.filter
      (fun p => (px.search p true false text).isSome)
    dates := date_patterns.flatMap (fun p => px.findall p false text)
    monetary := monetary_patterns.flatMap (fun p => px.findall p true text)
    time_periods := time_period_patterns.flatMap (fun p => px.findall p true text)
    tables := if pm_has_table_structure px text then ["table_detected"] else [] }

/-- Embeds `PatternMatcher._get_numbering_style` (lines 747–762). -/
def pm_get_numbering_style (px : PyStdlib) (sections : List String) : String :=
  match sections with
  | [] => "none"
  | sample :: _ =>
    if px.reMatch "\\d+\\.\\d+" sample then "decimal"
    else if px.reMatch "[A-Z]\\.\\s*\\d+" sample then "alpha_numeric"
    else if px.reMatch "Article\\s+[IVX]+" sample then "roman"
    else if px.reMatch "Section\\s+\\d+" sample then "section"
    else "other"

/-- The section-numbering component of `_compare_structures` (lines 707–716). -/
def pm_sec_score (px : PyStdlib) (p1 p2 : PatternsFound) : ℚ :=
  if ¬p1.sections.isEmpty ∧ ¬p2.sections.isEmpty then
    (if pm_get_numbering_style px p1.sections = pm_get_numbering_style px p2.sections
     then 1 else 1 / 2)
  else if p1.sections.isEmpty ∧ p2.sections.isEmpty then 1 else 0

/-- The bullet-point component of `_compare_structures` (lines 718–726). -/
def pm_bul_score (p1 p2 : PatternsFound) : ℚ :=
  if ¬p1.bullets.isEmpty ∧ ¬p2.bullets.isEmpty then
    (if p1.bullets.any (fun b => p2.bullets.contains b) then 1 else 1 / 2)
  else if p1.bullets.isEmpty ∧ p2.bullets.isEmpty then 1 else 0

/-- The legal-term Jaccard component of `_compare_structures` (lines
728–734): a singleton score when both texts have legal terms, else empty. -/
def pm_legal_scores (p1 p2 : PatternsFound) : List ℚ :=
  if ¬p1.legal_terms.isEmpty ∧ ¬p2.legal_terms.isEmpty then
    let common := (p1.legal_terms.dedup.filter (fun x => p2.legal_terms.contains x)).length
    let total := (p1.legal_terms.dedup ++
      p2.legal_terms.dedup.filter (fun x => !p1.legal_terms.contains x)).length
    if total ≠ 0 then [(common : ℚ) / (total : ℚ)] else []
  else []

/-- The presence-parity score of `_compare_structures` (lines 736–741). -/
def pm_parity (l1 l2 : List String) : ℚ := if l1.isEmpty = l2.isEmpty then (1 : ℚ) else 1 / 2

/-- Embeds `PatternMatcher._compare_structures` (lines 701–745).  The legal-term
component is only scored when both texts have legal terms, exactly as in
the source. -/
def pm_compare_structures (px : PyStdlib) (p1 p2 : PatternsFound) : ℚ :=
  let scores := [pm_sec_score px p1 p2, pm_bul_score p1 p2] ++ pm_legal_scores p1 p2 ++
    [pm_parity p1.dates p2.dates, pm_parity p1.monetary p2.monetary,
     pm_parity p1.time_periods p2.time_periods]
  if scores.isEmpty then 0 else scores.foldl (· + ·) 0 / (scores.length : ℚ)

/-- Embeds `PatternMatcher._check_attribute_patterns` (lines 764–789); searches run
on the lowercased contract text only, and unknown attributes default to 0.5. -/
def pm_check_attribute_patterns (px : PyStdlib)
    (contract_text _template_text attribute_name : String) : ℚ :=
  match attribute_patterns.find? (fun p => p.1 == attribute_name) with
  | none => 1 / 2
  | some (_, pats) =>
    let cl := pyLower contract_text
    let requiredFound := (pats.1.filter (fun p => (px.search p false false cl).isSome)).length
    let requiredScore : ℚ :=
      if pats.1.isEmpty then 0 else (requiredFound : ℚ) / (pats.1.length : ℚ)
    let structFound := (pats.2.filter (fun p => (px.search p false false cl).isSome)).length
    let structScore : ℚ :=
      if pats.2.isEmpty then 0 else (structFound : ℚ) / (pats.2.length : ℚ)
    7 / 10 * requiredScore + 3 / 10 * structScore

/-- Embeds `PatternMatcher._extract_table_values` (lines 842–852). -/
def pm_extract_table_values (px : PyStdlib) (text : String) : List String :=
  px.findall "\\$\\d+(?:,\\d\x7b3\x7d)*(?:\\.\\d\x7b2\x7d)?" false text ++
    px.findall "\\d+(?:\\.\\d+)?%" false text

/-- Embeds `PatternMatcher._categorize_values` (lines 854–864): the set
`{monetary, percentage}` represented as (has-monetary, has-percentage). -/
def pm_categorize_values (values : List String) : Bool × Bool :=
  (values.any (fun v => v.startsWith "$"), values.any (fun v => v.endsWith "%"))

/-- Embeds `PatternMatcher._compare_table_structures` (lines 812–840). -/
def pm_compare_table_structures (px : PyStdlib) (contract_text template_text : String) : ℚ :=
  let cv := pm_extract_table_values px contract_text
  let tv := pm_extract_table_values px template_text
  if cv.isEmpty ∧ tv.isEmpty then 1
  else if cv.isEmpty ∨ tv.isEmpty then 0
  else
    let countRatio : ℚ := (min cv.length tv.length : ℚ) / (max cv.length tv.length : ℚ)
    let score := countRatio * (1 / 2)
    let ct := pm_categorize_values cv
    let tt := pm_categorize_values tv
    if ct = tt then score + 1 / 2
    else if (ct.1 && tt.1) || (ct.2 && tt.2) then score + 1 / 4
    else score

/-- The explanation string of `PatternMatcher.match` (lines 614–631). -/
def pm_explanation (structure_score attribute_score table_score : ℚ) : String :=
  let parts :=
    [if 4 / 5 < structure_score then "Strong structural match (" ++ fmtQ2 structure_score ++ ")"
     else if 1 / 2 < structure_score then
       "Moderate structural match (" ++ fmtQ2 structure_score ++ ")"
     else "Weak structural match (" ++ fmtQ2 structure_score ++ ")"]
  let parts := if 4 / 5 < attribute_score then
      parts ++ ["Attribute patterns match well (" ++ fmtQ2 attribute_score ++ ")"]
    else if 1 / 2 < attribute_score then
      parts ++ ["Some attribute patterns match (" ++ fmtQ2 attribute_score ++ ")"]
    else parts
  let parts := if 0 < table_score then
      parts ++ ["Table structure similarity: " ++ fmtQ2 table_score]
    else parts
  String.intercalate "; " parts

/-- The `matched_patterns` payload of `PatternMatcher.match` (lines 633–639). -/
structure PatternDetails where
  contract_patterns : PatternsFound
  template_patterns : PatternsFound
  structure_score : ℚ
  attribute_score : ℚ
  table_score : ℚ
deriving DecidableEq

/-- Embeds `PatternMatcher.match` (lines 563–641).  The normalized texts are
computed and never used afterwards, exactly as in the source (lines
578–579); `context` is accepted and never read (modelled as `Option Unit`). -/
def pm_match (px : PyStdlib) (contract_text template_text attribute_name : String)
    (_context : Option Unit) : ℚ × PatternDetails × String :=
  let _contract_norm := pm_normalize_text px contract_text
  let _template_norm := pm_normalize_text px template_text
  let cp := pm_extract_patterns px contract_text attribute_name
  let tp := pm_extract_patterns px template_text attribute_name
  let structure_score := pm_compare_structures px cp tp
  let attribute_score := pm_check_attribute_patterns px contract_text template_text attribute_name
  let table_score :=
    if pm_has_table_structure px template_text then
      pm_compare_table_structures px contract_text template_text
    else 0
  let final_score :=
    if 0 < table_score then
      2 / 5 * structure_score + 2 / 5 * attribute_score + 1 / 5 * table_score
    else 1 / 2 * structure_score + 1 / 2 * attribute_score
  (final_score,
   { contract_patterns := cp, template_patterns := tp, structure_score := structure_score,
     attribute_score := attribute_score, table_score := table_score },
   pm_explanation structure_score attribute_score table_score)

/-! ## SemanticMatcher (compare_clauses.py lines 876–1270)

The sentence-embedding model, the cosine similarity of `sklearn`, and
numpy mean pooling are external capabilities, modelled as an oracle over an
abstract embedding type `E`.  The embedding cache (lines 1074–1095) only
memoises the deterministic `encode` call and is therefore modelled away. -/

structure EmbedBackend (E : Type) where
  /-- `model.encode(texts)` for the chunk list, with the cache key of
  `_get_embeddings` (lines 1060–1095). -/
  encode : (cacheKey : String) → List String → List E
  /-- `sklearn.metrics.pairwise.cosine_similarity` of two embeddings. -/
  cosine : E → E → ℚ
  /-- `np.mean(embeddings, axis=0)` document pooling (lines 1125–1127). -/
  meanPool : List E → E

/-- Embeds `SemanticMatcher.attribute_thresholds` (lines 922–928). -/
def attribute_thresholds : List (String × ℚ) :=
  [("Medicaid Timely Filing", 3 / 4), ("Medicare Timely Filing", 3 / 4),
   ("No Steerage/SOC", 7 / 10), ("Medicaid Fee Schedule", 13 / 20),
   ("Medicare Fee Schedule", 13 / 20)]

/-- Embeds `SemanticMatcher.attribute_keywords` (lines 931–947). -/
def attribute_keywords : List (String × List String) :=
  [("Medicaid Timely Filing",
    ["medicaid", "timely filing", "claim submission", "days", "deadline"]),
   ("Medicare Timely Filing",
    ["medicare", "timely filing", "claim submission", "days", "deadline"]),
   ("No Steerage/SOC",
    ["network", "provider panel", "steerage", "standard of care", "referral"]),
   ("Medicaid Fee Schedule",
    ["medicaid", "fee schedule", "reimbursement", "rate", "payment"]),
   ("Medicare Fee Schedule",
    ["medicare", "fee schedule", "reimbursement", "rate", "payment"])]

/-- Python `text.rfind('.', start, stop)` as an option (lines 1048). -/
def sm_rfindDot (t : List Char) (start stop : ℕ) : Option ℕ :=
  ((List.range' start (stop - start)).filter (fun i => t.getD i charD0 = '.')).getLast?

/-- The chunking loop of `SemanticMatcher._chunk_text` (lines 1039–1058);
`start` advances by at least `chunk_size - overlap` (or 130 via the
sentence break), so `t.length + 1` units of fuel always suffice. -/
def sm_chunkGo (t : List Char) (chunkSize overlap : ℕ) : ℕ → ℕ → List String
  | _, 0 => []
  | start, fuel + 1 =>
    if start < t.length then
      let e0 := start + chunkSize
      let e := if e0 < t.length then
          match sm_rfindDot t start e0 with
          | some se => if start + chunkSize / 2 < se then se + 1 else e0
          | none => e0
        else e0
      let chunk := pyStrip ⟨pySlice t start e⟩
      let rest := sm_chunkGo t chunkSize overlap (e - overlap) fuel
      if chunk.isEmpty then rest else chunk :: rest
    else []

/-- Embeds `SemanticMatcher._chunk_text` (lines 1021–1058), default
`chunk_size=512`, `overlap=128`. -/
def sm_chunk_text (px : PyStdlib) (text : String) : List String :=
  if text.isEmpty then []
  else
    let t := px.sub "\\s+" " " false (pyStrip text)
    sm_chunkGo t.data 512 128 0 (t.length + 1)

/-- Maximum of a list of rationals (`np.max`); only applied to non-empty
lists in the source. -/
def listMaxQ : List ℚ → ℚ
  | [] => 0
  | x :: xs => xs.foldl max x

/-- Minimum of a list of rationals (`np.min`). -/
def listMinQ : List ℚ → ℚ
  | [] => 0
  | x :: xs => xs.foldl min x

/-- Mean of a list of rationals (`np.mean`). -/
def listMeanQ (l : List ℚ) : ℚ :=
  if l.isEmpty then 0 else l.foldl (· + ·) 0 / (l.length : ℚ)

/-- The chunk-similarity statistics (lines 1097–1117). -/
structure ChunkSims where
  max_similarity : ℚ
  mean_similarity : ℚ
  min_similarity : ℚ
deriving DecidableEq

/-- Embeds `SemanticMatcher._calculate_chunk_similarities` (lines 1097–1117):
row maxima of the pairwise cosine matrix, then their max/mean/min. -/
def sm_chunk_similarities {E : Type} (be : EmbedBackend E) (e1 e2 : List E) : ChunkSims :=
  if e1.isEmpty ∨ e2.isEmpty then ⟨0, 0, 0⟩
  else
    let rowMaxes := e1.map (fun x => listMaxQ (e2.map (fun y => be.cosine x y)))
    ⟨listMaxQ rowMaxes, listMeanQ rowMaxes, listMinQ rowMaxes⟩

/-- Embeds `SemanticMatcher._calculate_document_similarity` (lines 1119–1135). -/
def sm_document_similarity {E : Type} (be : EmbedBackend E) (e1 e2 : List E) : ℚ :=
  if e1.isEmpty ∨ e2.isEmpty then 0
  else be.cosine (be.meanPool e1) (be.meanPool e2)

/-- Embeds `SemanticMatcher._calculate_keyword_score` (lines 1137–1170): presence
ratios of the attribute keywords in both texts plus a similarity bonus;
note the result ranges up to `1.2`, not `1.0`. -/
def sm_keyword_score (contract_text template_text attribute_name : String) : ℚ :=
  match attribute_keywords.find? (fun p => p.1 == attribute_name) with
  | none => 1 / 2
  | some (_, kws) =>
    let cl := pyLower contract_text
    let tl := pyLower template_text
    let cc := (kws.filter (fun k => strContains cl (pyLower k))).length
    let tc := (kws.filter (fun k => strContains tl (pyLower k))).length
    if kws.isEmpty then 1 / 2
    else
      let cr : ℚ := (cc : ℚ) / (kws.length : ℚ)
      let tr : ℚ := (tc : ℚ) / (kws.length : ℚ)
      let bonus : ℚ := if 0 < cr ∧ 0 < tr then min cr tr / max cr tr else 0
      (cr + tr) / 2 + bonus * (1 / 5)

/-- Embeds `SemanticMatcher._generate_explanation` (lines 1198–1236). -/
def sm_explanation (cs : ChunkSims) (doc kw final threshold : ℚ) : String :=
  let e1 := if threshold ≤ final then
      "Semantic match found (score: " ++ fmtQ2 final ++ " >= threshold: " ++
        fmtQ2 threshold ++ ")"
    else
      "Insufficient semantic similarity (score: " ++ fmtQ2 final ++ " < threshold: " ++
        fmtQ2 threshold ++ ")"
  let e2 := if 9 / 10 ≤ cs.max_similarity then "Very high similarity in some sections"
    else if 7 / 10 ≤ cs.max_similarity then "Good similarity in some sections"
    else if 1 / 2 ≤ cs.max_similarity then "Moderate similarity in some sections"
    else "Low chunk-level similarity"
  let e3 := if 4 / 5 ≤ doc then "Strong overall semantic alignment (" ++ fmtQ2 doc ++ ")"
    else if 3 / 5 ≤ doc then "Moderate overall semantic alignment (" ++ fmtQ2 doc ++ ")"
    else "Weak overall semantic alignment (" ++ fmtQ2 doc ++ ")"
  let e4 := if 4 / 5 ≤ kw then "Key terminology strongly present"
    else if 1 / 2 ≤ kw then "Some key terminology present"
    else "Limited key terminology"
  String.intercalate "; " [e1, e2, e3, e4]

/-- The `match_details` payload of `SemanticMatcher.match` (lines 1006–1017);
the diagnostic `best_matching_chunks` list is not modelled. -/
structure SemanticDetails where
  chunk_similarities : ChunkSims
  document_similarity : ℚ
  keyword_score : ℚ
  final_score : ℚ
  threshold : ℚ
deriving DecidableEq

/-- Embeds `SemanticMatcher.match` (lines 949–1019): weights chunk 0.4,
document 0.4, keyword 0.2; the per-attribute threshold (default 0.7) is
computed for the explanation and details only. -/
def sm_match {E : Type} (px : PyStdlib) (be : EmbedBackend E)
    (contract_text template_text attribute_name : String) : ℚ × SemanticDetails × String :=
  let contract_chunks := sm_chunk_text px contract_text
  let template_chunks := sm_chunk_text px template_text
  let ce := be.encode ("contract_" ++ attribute_name) contract_chunks
  let te := be.encode ("template_" ++ attribute_name) template_chunks
  let cs := sm_chunk_similarities be ce te
  let doc := sm_document_similarity be ce te
  let kw := sm_keyword_score contract_text template_text attribute_name
  let final := 2 / 5 * cs.max_similarity + 2 / 5 * doc + 1 / 5 * kw
  let threshold :=
    ((attribute_thresholds.find? (fun p => p.1 == attribute_name)).map Prod.snd).getD (7 / 10)
  (final,
   { chunk_similarities := cs, document_similarity := doc, keyword_score := kw,
     final_score := final, threshold := threshold },
   sm_explanation cs doc kw final threshold)

/-! ## ContractAnalyzer (compare_clauses.py lines 1288–1764) -/

/-- Embeds `ReimbursementMethodology` (lines 1288–1307). -/
inductive ReimbursementMethodology where
  | STANDARD_FEE_SCHEDULE | CUSTOM_RATES | STATE_SPECIFIC | SPECIAL_PROGRAMS
  | UNUSUAL_TIME_UNITS | NON_STANDARD_SERVICES | FIXED_HISTORICAL | NON_FEDERAL
  | FULL_COVERAGE | DYNAMIC_ADJUSTMENTS | SPECIAL_AFFILIATION | YEAR_LOCKED
  | MEDICARE_BASED | MEDICAID_LAB | FIXED_DOLLAR | PERCENTAGE_BASED | CUSTOM | UNKNOWN
deriving DecidableEq

/-- Embeds `QualifierAnalysis` (lines 1310–1316). -/
structure QualifierAnalysis where
  has_qualifiers : Bool
  qualifiers_found : List String
  qualifier_impact : String
  confidence : ℚ
deriving DecidableEq

/-- Embeds `MethodologyAnalysis` (lines 1319–1326). -/
structure MethodologyAnalysis where
  methodology_type : ReimbursementMethodology
  is_standard : Bool
  confidence : ℚ
  evidence : List String
  explanation : String
deriving DecidableEq

/-- Embeds `ContractAnalyzer.qualifier_patterns` (lines 1339–1365), in dict order. -/
def qualifier_patterns : List (String × List String) :=
  [("conditional",
    ["(?i)\\b(if|when|provided that|on condition that|subject to)\\b",
     "(?i)\\b(unless|except|excluding|but not)\\b",
     "(?i)\\b(only if|solely|exclusively)\\b"]),
   ("limitations",
    ["(?i)\\b(up to|maximum|not to exceed|cap|ceiling)\\b",
     "(?i)\\b(minimum|at least|floor|no less than)\\b",
     "(?i)\\b(limited to|restricted to)\\b"]),
   ("time_based",
    ["(?i)\\b(after|before|within|during|following)\\b.*\\b(period|months?|years?|days?)\\b",
     "(?i)\\b(effective|beginning|starting|ending|through)\\b.*\\b(date|period)\\b",
     "(?i)\\b(retroactive|prospective)\\b"]),
   ("carve_outs",
    ["(?i)\\b(except for|excluding|other than|aside from)\\b",
     "(?i)\\b(carve[- ]?out|carved out|exemption)\\b",
     "(?i)\\b(not applicable to|does not apply)\\b"]),
   ("special_circumstances",
    ["(?i)\\b(in the event|in case of|upon occurrence)\\b",
     "(?i)\\b(special|unique|specific) circumstances?\\b",
     "(?i)\\b(case[- ]?by[- ]?case|individually determined)\\b"])]

/-- Embeds `ContractAnalyzer.standard_indicators` (lines 1368–1373). -/
def standard_indicators : List String :=
  ["professional provider market master fee schedule",
   "market master fee schedule",
   "professional provider fee schedule",
   "standard fee schedule"]

/-- Indicator 1, `custom_rates_patterns` (lines 1380–1385). -/
def custom_rates_patterns : List String :=
  ["(?i)\\$\\d+(?:\\.\\d\x7b2\x7d)?\\s*(?:per|for)\\s+\\w+",
   "(?i)(?:fixed|flat|set)\\s+(?:rate|fee|amount)",
   "(?i)\\d+(?:\\.\\d+)?%\\s*of\\s*(?:charges?|billed|usual)",
   "(?i)proprietary\\s+(?:rate|fee|schedule)"]

/-- Indicator 2, `state_specific_patterns` (lines 1388–1393). -/
def state_specific_patterns : List String :=
  ["(?i)state[- ](?:specific|determined|mandated)\\s+(?:rate|program|schedule)",
   "(?i)(?:Tennessee|Texas|California|Florida|state)\\s+(?:legislation|statute|law).*?(?:rate|reimbursement)",
   "(?i)rate\\s+corridor",
   "(?i)state[- ]administered\\s+program"]

/-- Indicator 3, `special_programs_patterns` (lines 1396–1402). -/
def special_programs_patterns : List String :=
  ["(?i)1915\\s*\\([a-z]\\)\\s*(?:waiver|program)",
   "(?i)\\b(?:IDD|DD|HCBS|Katie\\s+Beckett|TEFRA)\\s+(?:waiver|program)",
   "(?i)transitional\\s+(?:services?|care|program)",
   "(?i)behavioral\\s+health\\s+waiver",
   "(?i)specialized?\\s+waiver"]

/-- Indicator 4, `unusual_time_patterns` (lines 1405–1411). -/
def unusual_time_patterns : List String :=
  ["(?i)per\\s+(?:15|30|45)\\s*min(?:ute)?s?",
   "(?i)per\\s+(?:service\\s+)?unit(?!ed)",
   "(?i)per\\s+case(?!\\s+management)",
   "(?i)per\\s+encounter",
   "(?i)per\\s+episode"]

/-- Indicator 5, `non_standard_services_patterns` (lines 1414–1422). -/
def non_standard_services_patterns : List String :=
  ["(?i)family\\s+residential\\s+support",
   "(?i)specialized\\s+equipment",
   "(?i)personal\\s+emergency\\s+response",
   "(?i)assistive\\s+technology",
   "(?i)respite\\s+care",
   "(?i)habilitation\\s+services?",
   "(?i)(?:non-medical|ancillary)\\s+(?:services?|supplies?)"]

/-- Indicator 6, `fixed_historical_patterns` (lines 1425–1431). -/
def fixed_historical_patterns : List String :=
  ["(?i)(?:19|20)\\d\x7b2\x7d\\s+(?:rate|fee|schedule|conversion\\s+factor)",
   "(?i)as\\s+of\\s+(?:19|20)\\d\x7b2\x7d",
   "(?i)(?:frozen|locked|fixed)\\s+(?:at|as\\s+of|from)\\s+(?:19|20)\\d\x7b2\x7d",
   "(?i)relative\\s+weight.*?(?:19|20)\\d\x7b2\x7d",
   "(?i)calendar\\s+year\\s+(?:19|20)\\d\x7b2\x7d"]

/-- Indicator 7, `non_federal_patterns` (lines 1434–1439). -/
def non_federal_patterns : List String :=
  ["(?i)(?:internal|proprietary|custom)\\s+(?:methodology|fee\\s+schedule)",
   "(?i)state[- ]developed\\s+(?:rate|schedule|methodology)",
   "(?i)(?:provider|organization)[- ]specific\\s+rate",
   "(?i)negotiated\\s+rate(?!.*medicare|.*medicaid|.*cms)"]

/-- Indicator 8, `full_coverage_patterns` (lines 1442–1447). -/
def full_coverage_patterns : List String :=
  ["(?i)100%\\s+(?:of|reimbursement)",
   "(?i)full\\s+reimbursement",
   "(?i)all\\s+(?:supplies?|equipment|ancillary\\s+costs?)\\s+(?:included|covered)",
   "(?i)inclusive\\s+of\\s+all\\s+(?:costs?|charges?)"]

/-- Indicator 9, `dynamic_adjustments_patterns` (lines 1450–1456). -/
def dynamic_adjustments_patterns : List String :=
  ["(?i)retroactive(?:ly)?\\s+adjust",
   "(?i)dynamic\\s+(?:adjustment|rate|pricing)",
   "(?i)corridor\\s+(?:monitoring|modeling|adjustment)",
   "(?i)relative\\s+position.*?adjust",
   "(?i)reconciliation.*?based\\s+on"]

/-- Indicator 10, `affiliation_patterns` (lines 1459–1464). -/
def affiliation_patterns : List String :=
  ["(?i)affiliate\\s+(?:network|provider|arrangement)",
   "(?i)coordinated\\s+(?:care|program).*?(?:rate|reimbursement)",
   "(?i)(?:ACO|accountable\\s+care).*?(?:rate|methodology)",
   "(?i)network[- ]specific\\s+rate"]

/-- The ten indicators, in the insertion order of the results dict built by
`check_non_standard_indicators` (lines 1494–1542). -/
def indicator_list : List (String × List String) :=
  [("custom_rates", custom_rates_patterns),
   ("state_specific", state_specific_patterns),
   ("special_programs", special_programs_patterns),
   ("unusual_time_units", unusual_time_patterns),
   ("non_standard_services", non_standard_services_patterns),
   ("fixed_historical", fixed_historical_patterns),
   ("non_federal", non_federal_patterns),
   ("full_coverage", full_coverage_patterns),
   ("dynamic_adjustments", dynamic_adjustments_patterns),
   ("affiliation", affiliation_patterns)]

/-- Embeds `standard_medicare_patterns` (lines 1467–1472). -/
def standard_medicare_patterns : List String :=
  ["(?i)\\d+(?:\\.\\d+)?%\\s*of\\s*medicare(?:\\s+(?:advantage|fee\\s+schedule))?",
   "(?i)\\d+(?:\\.\\d+)?%\\s*of\\s*medicaid(?:\\s+fee\\s+schedule)?",
   "(?i)medicare.*?rate.*?\\d+(?:\\.\\d+)?%",
   "(?i)medicaid.*?rate.*?\\d+(?:\\.\\d+)?%"]

/-- Embeds `standard_provisions` (lines 1475–1483). -/
def standard_provisions : List String :=
  ["(?i)CMS.*?adjust(?:ment|s)",
   "(?i)bad\\s+debt.*?exclud",
   "(?i)interim\\s+payment",
   "(?i)retroactive.*?reconciliation",
   "(?i)medicare.*?fee\\s+schedule",
   "(?i)percent\\s+of\\s+medicare",
   "(?i)\\[.*?percent.*?medicare.*?\\]"]

/-- Embeds `ContractAnalyzer.check_non_standard_indicators` (lines 1485–1544):
indicator name ↦ (found, evidence capped at 3 snippets). -/
def check_non_standard_indicators (px : PyStdlib) (text : String) :
    List (String × (Bool × List String)) :=
  indicator_list.map (fun p =>
    let evidence := p.2.filterMap (fun pat => px.search pat false false text)
    (p.1, (0 < evidence.length, evidence.take 3)))

/-- Embeds `fee_qualifiers` of `analyze_qualifiers` (lines 1561–1566). -/
def fee_qualifier_patterns : List String :=
  ["(?i)except.*?(?:service|procedure|code)",
   "(?i)excluding.*?(?:service|procedure|code)",
   "(?i)for.*?(?:service|procedure|code).*?only",
   "(?i)applicable.*?to.*?specific"]

/-- The accumulation loops of `analyze_qualifiers` (lines 1550–1571),
returning `(qualifiers_found, qualifier_types)`: per qualifier pattern with
matches, all its matches are appended and its category name is appended
once; for Fee Schedule attributes the four fee-specific patterns follow. -/
def aq_scan (px : PyStdlib) (text attribute_name : String) : List String × List String :=
  let base := qualifier_patterns.foldl (fun (acc : List String × List String) cat =>
    cat.2.foldl (fun (acc : List String × List String) pat =>
      let ms := px.findall pat true text
      if ms.isEmpty then acc else (acc.1 ++ ms, acc.2 ++ [cat.1])) acc) ([], [])
  if strContains attribute_name "Fee Schedule" then
    fee_qualifier_patterns.foldl (fun (acc : List String × List String) pat =>
      if (px.search pat false false text).isSome then
        (acc.1 ++ ["Fee-specific qualifier: " ++ pat], acc.2 ++ ["fee_specific"])
      else acc) base
  else base

/-- Embeds `ContractAnalyzer.analyze_qualifiers` (lines 1546–1593).  A category
name is appended to `qualifier_types` once per pattern with matches, so the
`0.7` branch requires exactly one matching pattern overall, in category
`time_based`. -/
def analyze_qualifiers (px : PyStdlib) (text attribute_name : String) : QualifierAnalysis :=
  let acc := aq_scan px text attribute_name
  let qualifiers_found := acc.1
  let qualifier_types := acc.2
  let has_qualifiers := 0 < qualifiers_found.length
  let ic : String × ℚ :=
    if ¬has_qualifiers then ("No qualifiers detected", 1)
    else if qualifier_types.length = 1 ∧ qualifier_types.headD "" = "time_based" then
      ("Minor time-based qualifiers only", 7 / 10)
    else if qualifiers_found.length ≤ 2 then
      ("Some qualifiers present - review needed", 1 / 2)
    else ("Multiple qualifiers detected - likely non-standard", 1 / 5)
  { has_qualifiers := has_qualifiers, qualifiers_found := qualifiers_found.take 10,
    qualifier_impact := ic.1, confidence := ic.2 }

/-- Embeds `methodology_map` of the multi-indicator branch (lines 1625–1636). -/
def methodology_map : List (String × ReimbursementMethodology) :=
  [("custom_rates", .CUSTOM_RATES), ("state_specific", .STATE_SPECIFIC),
   ("special_programs", .SPECIAL_PROGRAMS), ("unusual_time_units", .UNUSUAL_TIME_UNITS),
   ("non_standard_services", .NON_STANDARD_SERVICES), ("fixed_historical", .FIXED_HISTORICAL),
   ("non_federal", .NON_FEDERAL), ("full_coverage", .FULL_COVERAGE),
   ("dynamic_adjustments", .DYNAMIC_ADJUSTMENTS), ("affiliation", .SPECIAL_AFFILIATION)]

/-- Embeds `methodology_map` of the single-indicator branch (lines 1653–1664),
with the per-indicator explanations. -/
def methodology_map_single : List (String × (ReimbursementMethodology × String)) :=
  [("custom_rates", (.CUSTOM_RATES, "Custom rate structure")),
   ("state_specific", (.STATE_SPECIFIC, "State-specific modifications")),
   ("special_programs", (.SPECIAL_PROGRAMS, "Special program/waiver rates")),
   ("unusual_time_units", (.UNUSUAL_TIME_UNITS, "Unusual time-based units")),
   ("non_standard_services", (.NON_STANDARD_SERVICES, "Non-standard services")),
   ("fixed_historical", (.FIXED_HISTORICAL, "Fixed historical references")),
   ("non_federal", (.NON_FEDERAL, "Non-federal methodology")),
   ("full_coverage", (.FULL_COVERAGE, "Full coverage exceptions")),
   ("dynamic_adjustments", (.DYNAMIC_ADJUSTMENTS, "Dynamic adjustments")),
   ("affiliation", (.SPECIAL_AFFILIATION, "Special affiliation rules"))]

/-- The Medicare/Medicaid-percentage loop of `analyze_methodology`
(lines 1679–1703): `some` analysis if any standard-Medicare pattern
matches, enough standard provisions (or a Fee Schedule attribute) are
present, and the grouped percentage search succeeds; otherwise `none` and
the caller falls through to UNKNOWN. -/
def am_medicare_branch (px : PyStdlib) (text attribute_name : String) :
    Option MethodologyAnalysis :=
  let step := fun (pattern : String) =>
    if (px.search pattern true false text).isSome then
      let spf := standard_provisions.filterMap (fun pp => px.search pp true false text)
      if 2 ≤ spf.length ∨ strContains attribute_name "Fee Schedule" then
        match px.searchPctOf text with
        | some pb =>
          some { methodology_type := .STANDARD_FEE_SCHEDULE, is_standard := true,
                 confidence := 19 / 20,
                 evidence := ["Standard template: " ++ pb.1 ++ "% of " ++ pb.2,
                              "Standard provisions: " ++ toString spf.length ++ " found"],
                 explanation := "Standard template with " ++ pb.1 ++ "% of " ++ pb.2 }
        | none => none
      else none
    else none
  standard_medicare_patterns.foldl (fun acc pattern => acc.orElse (fun _ => step pattern)) none

/-- Embeds `ContractAnalyzer.analyze_methodology` (lines 1595–1712). -/
def analyze_methodology (px : PyStdlib) (text attribute_name : String) : MethodologyAnalysis :=
  let text_lower := pyLower text
  match standard_indicators.find? (fun ind => strContains text_lower ind) with
  | some ind =>
    { methodology_type := .STANDARD_FEE_SCHEDULE, is_standard := true, confidence := 1,
      evidence := ["Found standard indicator: \x27" ++ ind ++ "\x27"],
      explanation := "Uses standard Professional Provider Market Master Fee Schedule" }
  | none =>
    let results := check_non_standard_indicators px text
    let triggered := (results.filter (fun p => p.2.1)).map Prod.fst
    if 2 ≤ triggered.length then
      let all_evidence := (results.filter (fun p => p.2.1)).flatMap (fun p => p.2.2)
      let primary :=
        ((methodology_map.find? (fun p => p.1 == triggered.headD "")).map Prod.snd).getD .CUSTOM
      { methodology_type := primary, is_standard := false, confidence := 9 / 10,
        evidence := all_evidence.take 5,
        explanation := "Non-standard: Multiple indicators found (" ++
          String.intercalate ", " triggered ++ ")" }
    else if triggered.length = 1 then
      let name := triggered.headD ""
      let ev := ((results.find? (fun p => p.1 == name)).map (fun p => p.2.2)).getD []
      let me := ((methodology_map_single.find? (fun p => p.1 == name)).map Prod.snd).getD
        (.CUSTOM, "Custom methodology")
      { methodology_type := me.1, is_standard := false, confidence := 4 / 5, evidence := ev,
        explanation := "Non-standard: " ++ me.2 }
    else
      match am_medicare_branch px text attribute_name with
      | some r => r
      | none =>
        { methodology_type := .UNKNOWN, is_standard := true, confidence := 1 / 2,
          evidence := ["No clear methodology pattern found"],
          explanation := "Cannot determine methodology - assuming standard" }

/-- Embeds `ContractAnalyzer.should_override_to_nonstandard` (lines 1714–1743). -/
def should_override_to_nonstandard (px : PyStdlib)
    (text attribute_name current_match_type : String) : Bool × String :=
  if current_match_type ≠ "fuzzy" ∧ current_match_type ≠ "semantic" then (false, "")
  else
    let results := check_non_standard_indicators px text
    let triggered := (results.filter (fun p => p.2.1)).map Prod.fst
    if 2 ≤ triggered.length then
      (true, "Multiple non-standard indicators: " ++ String.intercalate ", " (triggered.take 3))
    else
      let qcheck : Option (Bool × String) :=
        if current_match_type = "fuzzy" then
          let qa := analyze_qualifiers px text attribute_name
          if qa.has_qualifiers ∧ qa.confidence < 1 / 2 then
            some (true, "Contains non-standard qualifiers: " ++
              String.intercalate ", " (qa.qualifiers_found.take 3))
          else none
        else none
      match qcheck with
      | some r => r
      | none =>
        if strContains attribute_name "Fee Schedule" then
          let ma := analyze_methodology px text attribute_name
          if ¬ma.is_standard ∧ 7 / 10 < ma.confidence then (true, ma.explanation)
          else (false, "")
        else (false, "")

/-- Embeds `ContractAnalyzer.enhance_classification` (lines 1745–1764): an
override forces `(False, 0.0, reason)`; otherwise fee-schedule attributes
with a standard methodology get the ×1.1 boost capped at 1. -/
def enhance_classification (px : PyStdlib) (text attribute_name match_type : String)
    (original_confidence : ℚ) : Bool × ℚ × String :=
  let so := should_override_to_nonstandard px text attribute_name match_type
  if so.1 then (false, 0, so.2)
  else if strContains attribute_name "Fee Schedule" then
    let ma := analyze_methodology px text attribute_name
    if ma.is_standard then
      (true, min 1 (original_confidence * (11 / 10)),
       "Standard fee schedule methodology confirmed")
    else (true, original_confidence, "Original classification maintained")
  else (true, original_confidence, "Original classification maintained")

/-! ## ContractClassifier (compare_clauses.py lines 1792–2256)

The `try/except` wrappers of `_try_regex_match` / `_try_fuzzy_match` /
`_try_semantic_match` catch exceptions raised inside the matchers; the
embedded matchers are total functions over the oracles, so the handler
branches (confidence 0 with an error-message explanation) are unreachable
in the embedding and are not modelled. -/

/-- Embeds `MatchType` (lines 1792–1798). -/
inductive MatchType where
  | EXACT | REGEX | FUZZY | SEMANTIC | NO_MATCH
deriving DecidableEq

/-- The `matched_sections` payload (stage-specific; the
`business_rule_override` flag is the extra dict entry set on override at
lines 2030 and 2079). -/
inductive MatchedSections where
  | patterns (p : PatternDetails)
  | fuzzy (d : FuzzyDetails) (business_rule_override : Bool)
  | semantic (d : SemanticDetails) (business_rule_override : Bool)
deriving DecidableEq

/-- Embeds `ClassificationResult` (lines 1801–1809). -/
structure ClassificationResult where
  is_standard : Bool
  match_type : MatchType
  confidence : ℚ
  explanation : String
  attribute_name : String
  matched_sections : Option MatchedSections := none
deriving DecidableEq

/-- The configuration of `ContractClassifier.__init__` (lines 1820–1840),
with the source defaults. -/
structure ClassifierConfig where
  exact_threshold : ℚ := 1
  regex_threshold : ℚ := 9 / 10
  fuzzy_threshold : ℚ := 4 / 5
  semantic_threshold : ℚ := 7 / 10
  enable_business_rules : Bool := true

/-- Embeds `ContractClassifier._normalize_text` (lines 2104–2114).  The two
quote-standardisation character classes in the source consist only of
straight quotes (`["""]` and `['']`), reproduced verbatim. -/
def cc_normalize_text (px : PyStdlib) (text : String) : String :=
  let t := px.sub "\\s+" " " false (pyStrip text)
  let t := px.sub "\\n\\s*\\d+\\s*\\n" "\n" false t
  let t := px.sub "[\x22\x22\x22]" "\x22" false t
  let t := px.sub "[\x27\x27]" "\x27" false t
  pyLower t

/-- Embeds `placeholder_indicators` (lines 2119–2126). -/
def placeholder_indicators : List String :=
  ["\\[.*?\\]", "\\(XX%?\\)", "XX%?", "█+", "\\$X+", "_\x7b3,\x7d"]

/-- Embeds `medicare_placeholder_patterns` (lines 2139–2145):
template-placeholder pattern paired with the contract-value pattern. -/
def medicare_placeholder_patterns : List (String × String) :=
  [("\\[Specific Medicare Fee Schedule\\]", "Medicare (?:Physician )?Fee Schedule"),
   ("\\[Percent of\\s+Medicare\\]",
    "(?:ninety|one hundred|thirty five|sixty five|eighty|seventy|fifty)\\s+percent\\s*\\(\\d+%?\\)"),
   ("\\[Percent of\\s+Medicare\\]", "\\d+(?:\\.\\d+)?%"),
   ("\\[.*?Fee Schedule.*?\\]", "Medicare.*?Fee Schedule"),
   ("\\[.*?percent.*?\\]", "\\d+(?:\\.\\d+)?%")]

/-- The boilerplate-stripping patterns (lines 2172–2180). -/
def boilerplate_patterns : List String :=
  ["tennessee enterprise provider agreement.*?#",
   "©.*?\\d\x7b4\x7d.*?inc\\.?",
   "\\d\x7b2\x7d/\\d\x7b2\x7d/\\d\x7b4\x7d",
   "contraxx id #"]

/-- The normalization pipeline of `_is_placeholder_match` (lines 2134–2180),
returning the fully normalized `(template, contract)` pair whose
`difflib` ratio is compared against the threshold. -/
def cc_placeholder_normalized (px : PyStdlib)
    (contract_text template_text : String) : String × String :=
  let tc := medicare_placeholder_patterns.foldl (fun (acc : String × String) pp =>
    if (px.search pp.1 true false template_text).isSome then
      (px.sub pp.1 "MEDICARE_PLACEHOLDER" true acc.1,
       px.sub pp.2 "MEDICARE_PLACEHOLDER" true acc.2)
    else acc) (template_text, contract_text)
  let tn := placeholder_indicators.foldl (fun t p => px.sub p "PLACEHOLDER" false t) tc.1
  let cn := px.sub "\\d+(?:\\.\\d+)?%?" "PLACEHOLDER" false tc.2
  let cn := px.sub "\\$\\d+(?:,\\d\x7b3\x7d)*(?:\\.\\d\x7b2\x7d)?" "PLACEHOLDER" false cn
  let tn := px.sub "\\s+" " " false (pyLower (pyStrip tn))
  let cn := px.sub "\\s+" " " false (pyLower (pyStrip cn))
  let tn := boilerplate_patterns.foldl (fun t p => px.sub p "" false t) tn
  let cn := boilerplate_patterns.foldl (fun t p => px.sub p "" false t) cn
  (tn, cn)

/-- Embeds `ContractClassifier._is_placeholder_match` (lines 2116–2191). -/
def cc_is_placeholder_match (px : PyStdlib) (contract_text template_text : String) : Bool :=
  let has_placeholders := placeholder_indicators.any
    (fun p => (px.search p false false template_text).isSome)
  if ¬has_placeholders then false
  else
    let nc := cc_placeholder_normalized px contract_text template_text
    let similarity := px.ratio nc.1 nc.2
    if (px.search "medicare.*?fee schedule" true false template_text).isSome then
      7 / 10 ≤ similarity
    else 17 / 20 ≤ similarity

/-- Embeds `medicare_placeholders` of `_has_medicare_placeholder_pattern`
(lines 2196–2201). -/
def medicare_placeholders : List String :=
  ["\\[Specific Medicare Fee Schedule\\]", "\\[Percent of\\s+Medicare\\]",
   "\\[.*?Medicare.*?\\]", "\\[.*?Fee Schedule.*?\\]"]

/-- Embeds `medicare_values` of `_has_medicare_placeholder_pattern` (lines 2212–2216). -/
def medicare_values : List String :=
  ["Medicare.*?Fee Schedule.*?(?:multiplied by|at)",
   "\\d+(?:\\.\\d+)?%.*?(?:of )?Medicare",
   "(?:ninety|one hundred|thirty five|sixty five|eighty|seventy|fifty)\\s+percent"]

/-- Embeds `ContractClassifier._has_medicare_placeholder_pattern` (lines 2193–2223). -/
def cc_has_medicare_placeholder_pattern (px : PyStdlib)
    (template_text contract_text : String) : Bool :=
  (medicare_placeholders.any (fun p => (px.search p true false template_text).isSome)) &&
    (medicare_values.any (fun p => (px.search p true false contract_text).isSome))

/-- Embeds `ContractClassifier._try_exact_match` (lines 1938–1970). -/
def cc_try_exact_match (px : PyStdlib)
    (contract_text template_text attribute_name : String) : ClassificationResult :=
  if cc_normalize_text px contract_text = cc_normalize_text px template_text then
    { is_standard := true, match_type := .EXACT, confidence := 1,
      explanation := "Exact text match", attribute_name := attribute_name }
  else if cc_is_placeholder_match px contract_text template_text then
    { is_standard := true, match_type := .EXACT, confidence := 19 / 20,
      explanation := "Exact match with placeholder replacement",
      attribute_name := attribute_name }
  else
    { is_standard := false, match_type := .EXACT, confidence := 0,
      explanation := "No exact match found", attribute_name := attribute_name }

/-- The threshold adjustment of `_try_regex_match` (lines 1980–1984):
`max(0.8, regex_threshold - 0.1)` for Fee Schedule attributes whose
template carries a Medicare placeholder matched by contract values. -/
def cc_regex_adjusted_threshold (px : PyStdlib) (cfg : ClassifierConfig)
    (contract_text template_text attribute_name : String) : ℚ :=
  if strContains attribute_name "Fee Schedule" &&
      cc_has_medicare_placeholder_pattern px template_text contract_text then
    max (4 / 5) (cfg.regex_threshold - 1 / 10)
  else cfg.regex_threshold

/-- Embeds `ContractClassifier._try_regex_match` (lines 1972–2004). -/
def cc_try_regex_match (px : PyStdlib) (cfg : ClassifierConfig)
    (contract_text template_text attribute_name : String)
    (context : Option Unit) : ClassificationResult :=
  let r := pm_match px contract_text template_text attribute_name context
  let adjust := strContains attribute_name "Fee Schedule" &&
    cc_has_medicare_placeholder_pattern px template_text contract_text
  let explanation := if adjust then
      r.2.2 ++ "; Adjusted threshold for Medicare fee schedule placeholder replacement"
    else r.2.2
  { is_standard :=
      decide (cc_regex_adjusted_threshold px cfg contract_text template_text attribute_name ≤ r.1),
    match_type := .REGEX,
    confidence := r.1, explanation := explanation, attribute_name := attribute_name,
    matched_sections := some (.patterns r.2.1) }

/-- Embeds `ContractClassifier._try_fuzzy_match` (lines 2006–2053). -/
def cc_try_fuzzy_match (px : PyStdlib) (cfg : ClassifierConfig)
    (contract_text template_text attribute_name : String) : ClassificationResult :=
  let r := fm_match px contract_text template_text attribute_name
  let similarity_score := r.1
  let is_standard := decide (cfg.fuzzy_threshold ≤ similarity_score)
  if is_standard && cfg.enable_business_rules then
    let e := enhance_classification px contract_text attribute_name "fuzzy" similarity_score
    if ¬e.1 then
      { is_standard := false, match_type := .FUZZY, confidence := e.2.1,
        explanation := r.2.2 ++ "; OVERRIDE: " ++ e.2.2, attribute_name := attribute_name,
        matched_sections := some (.fuzzy r.2.1 true) }
    else if e.2.1 ≠ similarity_score then
      { is_standard := is_standard, match_type := .FUZZY, confidence := e.2.1,
        explanation := r.2.2 ++ "; " ++ e.2.2, attribute_name := attribute_name,
        matched_sections := some (.fuzzy r.2.1 false) }
    else
      { is_standard := is_standard, match_type := .FUZZY, confidence := similarity_score,
        explanation := r.2.2, attribute_name := attribute_name,
        matched_sections := some (.fuzzy r.2.1 false) }
  else
    { is_standard := is_standard, match_type := .FUZZY, confidence := similarity_score,
      explanation := r.2.2, attribute_name := attribute_name,
      matched_sections := some (.fuzzy r.2.1 false) }

/-- Embeds `ContractClassifier._try_semantic_match` (lines 2055–2102). -/
def cc_try_semantic_match {E : Type} (px : PyStdlib) (be : EmbedBackend E)
    (cfg : ClassifierConfig)
    (contract_text template_text attribute_name : String) : ClassificationResult :=
  let r := sm_match px be contract_text template_text attribute_name
  let similarity_score := r.1
  let is_standard := decide (cfg.semantic_threshold ≤ similarity_score)
  if is_standard && cfg.enable_business_rules then
    let e := enhance_classification px contract_text attribute_name "semantic" similarity_score
    if ¬e.1 then
      { is_standard := false, match_type := .SEMANTIC, confidence := e.2.1,
        explanation := r.2.2 ++ "; OVERRIDE: " ++ e.2.2, attribute_name := attribute_name,
        matched_sections := some (.semantic r.2.1 true) }
    else if e.2.1 ≠ similarity_score then
      { is_standard := is_standard, match_type := .SEMANTIC, confidence := e.2.1,
        explanation := r.2.2 ++ "; " ++ e.2.2, attribute_name := attribute_name,
        matched_sections := some (.semantic r.2.1 false) }
    else
      { is_standard := is_standard, match_type := .SEMANTIC, confidence := similarity_score,
        explanation := r.2.2, attribute_name := attribute_name,
        matched_sections := some (.semantic r.2.1 false) }
  else
    { is_standard := is_standard, match_type := .SEMANTIC, confidence := similarity_score,
      explanation := r.2.2, attribute_name := attribute_name,
      matched_sections := some (.semantic r.2.1 false) }

/-- The missing-text result of `classify_contract` (lines 1893–1900). -/
def missingTextResult (attribute_name : String) : ClassificationResult :=
  { is_standard := false, match_type := .NO_MATCH, confidence := 0,
    explanation := "Missing text for comparison", attribute_name := attribute_name }

/-- The exhausted-cascade result of `classify_contract` (lines 1930–1936). -/
def noMatchResult (attribute_name : String) : ClassificationResult :=
  { is_standard := false, match_type := .NO_MATCH, confidence := 0,
    explanation := "No matching method succeeded", attribute_name := attribute_name }

/-- Embeds `ContractClassifier.classify_contract` (lines 1876–1936): the cascade
returns a stage result exactly when that result's `is_standard` is true. -/
def classify_contract {E : Type} (px : PyStdlib) (be : EmbedBackend E)
    (cfg : ClassifierConfig) (contract_text template_text attribute_name : String)
    (context : Option Unit) : ClassificationResult :=
  if contract_text.isEmpty || template_text.isEmpty then
    missingTextResult attribute_name
  else
    let r1 := cc_try_exact_match px contract_text template_text attribute_name
    if r1.is_standard then r1
    else
      let r2 := cc_try_regex_match px cfg contract_text template_text attribute_name context
      if r2.is_standard then r2
      else
        let r3 := cc_try_fuzzy_match px cfg contract_text template_text attribute_name
        if r3.is_standard then r3
        else
          let r4 := cc_try_semantic_match px be cfg contract_text template_text attribute_name
          if r4.is_standard then r4
          else noMatchResult attribute_name

/-- Python `d.get(k, default)` on an attribute dictionary (modelled as an
association list with distinct keys, as Python dicts guarantee). -/
def dictGet (d : List (String × String)) (k dflt : String) : String :=
  ((d.find? (fun p => p.1 == k)).map Prod.snd).getD dflt

/-- Embeds `ContractClassifier.classify_all_attributes` (lines 2225–2256):
iterate over the contract-attribute keys, defaulting missing texts to `""`. -/
def classify_all_attributes {E : Type} (px : PyStdlib) (be : EmbedBackend E)
    (cfg : ClassifierConfig) (contract_attributes template_attributes : List (String × String))
    (contexts : Option (List (String × Unit))) : List (String × ClassificationResult) :=
  (contract_attributes.map Prod.fst).map (fun attribute_name =>
    let contract_text := dictGet contract_attributes attribute_name ""
    let template_text := dictGet template_attributes attribute_name ""
    let context := match contexts with
      | some cs => (cs.find? (fun p => p.1 == attribute_name)).map Prod.snd
      | none => none
    (attribute_name,
      classify_contract px be cfg contract_text template_text attribute_name context))

/-! ## Claim verification

Helper lemmas are shared; each claim has exactly one main theorem, plus a
witness (for theorems with hypotheses) or a counterexample (for refuted
sentences of the specification). -/

/-- An arbitrary `PyStdlib` oracle.  Its values also agree with CPython on
the empty text, where every regex search fails and `findall` is empty. -/
def constPx : PyStdlib where
  sub := fun _ _ _ text => text
  search := fun _ _ _ _ => none
  findall := fun _ _ _ => []
  split := fun _ text => [text]
  reMatch := fun _ _ => false
  searchPctOf := fun _ => none
  ratio := fun _ _ => 0

/-- An arbitrary embedding backend with unit embeddings. -/
def constBE : EmbedBackend Unit where
  encode := fun _ chunks => chunks.map (fun _ => ())
  cosine := fun _ _ => 1
  meanPool := fun _ => ()

/-- The triggered-indicator names of `analyze_methodology` (line 1612):
indicators of `check_non_standard_indicators` whose `found` flag is set. -/
def am_triggered (px : PyStdlib) (text : String) : List String :=
  ((check_non_standard_indicators px text).filter (fun p => p.2.1)).map Prod.fst

/-- Oracle for the qualifier scenario on the text
`"retroactive payment within 30 days"`.  Each entry was checked against
CPython: `re.findall` with `re.IGNORECASE` finds one match of the first
`time_based` pattern (the tuple `("within", "days")`, modelled as one
opaque item) and one of the third (`"retroactive"`); each of the thirteen
remaining qualifier patterns finds nothing on this text. -/
def C6px : PyStdlib where
  sub := fun _ _ _ text => text
  search := fun _ _ _ _ => none
  findall := fun pat _ text =>
    if text = "retroactive payment within 30 days" then
      if pat = "(?i)\\b(after|before|within|during|following)\\b.*\\b(period|months?|years?|days?)\\b"
        then ["(\x27within\x27, \x27days\x27)"]
      else if pat = "(?i)\\b(retroactive|prospective)\\b" then ["retroactive"]
      else []
    else []
  split := fun _ text => [text]
  reMatch := fun _ _ => false
  searchPctOf := fun _ => none
  ratio := fun _ _ => 0

/-- Scenario template: `"Rate is [Percent of Medicare] of the Medicare Fee
Schedule."`. -/
def c9_template : String := "Rate is [Percent of Medicare] of the Medicare Fee Schedule."

/-- Scenario contract: `"Rate is 90% of the Medicare Fee Schedule."`. -/
def c9_contract : String := "Rate is 90% of the Medicare Fee Schedule."

/-- Oracle for the placeholder scenario.  Every entry was checked against
CPython `re`/`difflib` on the two scenario texts: the two non-identity
substitutions replace the template placeholder `[Percent of Medicare]` and
the contract value `90%` by `MEDICARE_PLACEHOLDER`; every other reached
substitution leaves its text unchanged; the four successful searches are
tabulated and every other reached search fails; the final normalized
template and contract are the identical string, whose `SequenceMatcher`
ratio is `1.0`. -/
def C9px : PyStdlib where
  sub := fun pat _ _ text =>
    if pat = "\\[Percent of\\s+Medicare\\]" ∧ text = c9_template then
      "Rate is MEDICARE_PLACEHOLDER of the Medicare Fee Schedule."
    else if pat = "\\d+(?:\\.\\d+)?%" ∧ text = c9_contract then
      "Rate is MEDICARE_PLACEHOLDER of the Medicare Fee Schedule."
    else text
  search := fun pat _ _ text =>
    if text = c9_template then
      if pat = "\\[.*?\\]" ∨ pat = "\\[Percent of\\s+Medicare\\]" ∨
          pat = "\\[.*?percent.*?\\]" then some "[Percent of Medicare]"
      else if pat = "medicare.*?fee schedule" then
        some "Medicare] of the Medicare Fee Schedule"
      else none
    else none
  findall := fun _ _ _ => []
  split := fun _ text => [text]
  reMatch := fun _ _ => false
  searchPctOf := fun _ => none
  ratio := fun a b => if a = b then 1 else 0

/-- Contract text of the override scenario: triggers the `custom_rates`,
`state_specific` and `non_federal` indicators. -/
def c1_contract : String :=
  "The proprietary fee schedule applies, and a state-specific rate applies."

/-- Template text of the override scenario: differs from the contract by
one comma only, which fuzzy preprocessing strips. -/
def c1_template : String :=
  "The proprietary fee schedule applies and a state-specific rate applies."

/-- Oracle for the override scenario.  Every entry was checked against
CPython `re`/`difflib` on the scenario texts: fuzzy preprocessing rewrites
both texts (comma and hyphen become spaces, runs of blanks collapse) to
the identical string, whose `SequenceMatcher` ratios are `1.0`; sentence
splitting on `[.!?]+` yields two parts on either text; exactly three
non-standard indicator patterns match the contract text; every other
reached substitution is the identity, every other reached search fails,
every other reached `findall` is empty and every other reached split
returns the whole text. -/
def C1px : PyStdlib where
  sub := fun pat _ _ text =>
    if pat = "[^\\w\\s\\.\\?\\!]" ∧
        text = "the proprietary fee schedule applies, and a state-specific rate applies." then
      "the proprietary fee schedule applies  and a state specific rate applies."
    else if pat = "\\s+" ∧
        text = "the proprietary fee schedule applies  and a state specific rate applies." then
      "the proprietary fee schedule applies and a state specific rate applies."
    else if pat = "[^\\w\\s\\.\\?\\!]" ∧
        text = "the proprietary fee schedule applies and a state-specific rate applies." then
      "the proprietary fee schedule applies and a state specific rate applies."
    else text
  search := fun pat _ _ text =>
    if text = c1_contract then
      if pat = "(?i)proprietary\\s+(?:rate|fee|schedule)" then some "proprietary fee"
      else if pat = "(?i)state[- ](?:specific|determined|mandated)\\s+(?:rate|program|schedule)"
        then some "state-specific rate"
      else if pat = "(?i)(?:internal|proprietary|custom)\\s+(?:methodology|fee\\s+schedule)"
        then some "proprietary fee schedule"
      else none
    else none
  findall := fun _ _ _ => []
  split := fun pat text =>
    if pat = "[.!?]+" ∧ text = c1_contract then
      ["The proprietary fee schedule applies, and a state-specific rate applies", ""]
    else if pat = "[.!?]+" ∧ text = c1_template then
      ["The proprietary fee schedule applies and a state-specific rate applies", ""]
    else [text]
  reMatch := fun _ _ => false
  searchPctOf := fun _ => none
  ratio := fun a b => if a = b then 1 else 0

/-- Contract text of the above-one scenario: carries all five
`Medicare Timely Filing` keywords. -/
def c2_contract : String :=
  "Medicare timely filing: claim submission deadline is within days."

/-- Template text of the above-one scenario: also carries all five
keywords, with different enough wording that the fuzzy stage rejects. -/
def c2_template : String :=
  "Providers send claims to Medicare. A deadline of days governs claim submission and timely filing."

/-- Oracle for the above-one scenario.  Every entry was checked against
CPython `re`/`difflib` on the scenario texts: fuzzy preprocessing turns the
colon into a space and collapses the double blank; the three successful
attribute-pattern searches on the lowercased contract are tabulated;
sentence splitting yields two parts for the contract and three for the
template; the two `SequenceMatcher` ratios are exactly `114/161`
(token-sorted) and `76/161`; every other reached substitution is the
identity, every other reached search fails and every other reached
`findall` is empty. -/
def C2px : PyStdlib where
  sub := fun pat _ _ text =>
    if pat = "[^\\w\\s\\.\\?\\!]" ∧
        text = "medicare timely filing: claim submission deadline is within days." then
      "medicare timely filing  claim submission deadline is within days."
    else if pat = "\\s+" ∧
        text = "medicare timely filing  claim submission deadline is within days." then
      "medicare timely filing claim submission deadline is within days."
    else text
  search := fun pat _ _ text =>
    if text = "medicare timely filing: claim submission deadline is within days." then
      if pat = "medicare" then some "medicare"
      else if pat = "(?:timely\\s+filing|submission.*?claims)" then some "timely filing"
      else if pat = "within.*?days" then some "within days"
      else none
    else none
  findall := fun _ _ _ => []
  split := fun pat text =>
    if pat = "[.!?]+" ∧ text = c2_contract then
      ["Medicare timely filing: claim submission deadline is within days", ""]
    else if pat = "[.!?]+" ∧ text = c2_template then
      ["Providers send claims to Medicare",
       " A deadline of days governs claim submission and timely filing", ""]
    else [text]
  reMatch := fun _ _ => false
  searchPctOf := fun _ => none
  ratio := fun a b =>
    if a = "claim days. deadline filing is medicare submission timely within" ∧
        b = "a and claim claims days deadline filing. governs medicare. of providers send submission timely to"
      then 114 / 161
    else if a = "medicare timely filing claim submission deadline is within days." ∧
        b = "providers send claims to medicare. a deadline of days governs claim submission and timely filing."
      then 76 / 161
    else 0

/-! ## Theorems -/

/-! ### Correctness of the DP against `levRef` -/

theorem levRef_nil_left (ys : List Char) : levRef [] ys = ys.length := by
  simp [levRef]

theorem levRef_nil_right (xs : List Char) : levRef xs [] = xs.length := by
  cases xs <;> simp [levRef]

theorem levRef_cons_cons (x y : Char) (xs ys : List Char) :
    levRef (x :: xs) (y :: ys) =
      if x = y then levRef xs ys
      else 1 + min (levRef xs (y :: ys)) (min (levRef (x :: xs) ys) (levRef xs ys)) := by
  simp [levRef]

set_option maxHeartbeats 1600000 in
/-- The textbook distance satisfies the last-character ("snoc") recurrence
that the DP row update uses. -/
theorem levRef_snoc (c d : Char) : ∀ t u : List Char,
    levRef (t ++ [c]) (u ++ [d]) =
      if c = d then levRef t u
      else 1 + min (levRef t (u ++ [d])) (min (levRef (t ++ [c]) u) (levRef t u)) := by
  have main : ∀ n t u, List.length t + List.length u ≤ n →
      levRef (t ++ [c]) (u ++ [d]) =
        if c = d then levRef t u
        else 1 + min (levRef t (u ++ [d])) (min (levRef (t ++ [c]) u) (levRef t u)) := by
    intro n
    induction n with
    | zero =>
      intro t u h
      have ht : t = [] := List.length_eq_zero.mp (by omega)
      have hu : u = [] := List.length_eq_zero.mp (by omega)
      subst ht; subst hu
      simpa only [List.nil_append] using levRef_cons_cons c d [] []
    | succ n ih =>
      intro t u h
      match t, u with
      | [], [] =>
        simpa only [List.nil_append] using levRef_cons_cons c d [] []
      | [], e :: u' =>
        have h1 := ih [] u' (by simp only [List.length_nil, List.length_cons] at h ⊢; omega)
        simp only [List.nil_append] at h1 ⊢
        simp only [List.cons_append]
        rw [levRef_cons_cons c e ([]) (u' ++ [d]),
            levRef_cons_cons c e ([]) u', h1]
        simp only [levRef_nil_left, List.length_append, List.length_cons, List.length_nil]
        generalize levRef [c] u' = A
        clear h h1 ih
        split_ifs <;> omega
      | a :: t', [] =>
        have h1 := ih t' [] (by simp only [List.length_nil, List.length_cons] at h ⊢; omega)
        simp only [List.nil_append] at h1 ⊢
        simp only [List.cons_append]
        rw [levRef_cons_cons a d (t' ++ [c]) ([]),
            levRef_cons_cons a d t' ([]), h1]
        simp only [levRef_nil_right, List.length_append, List.length_cons, List.length_nil]
        generalize levRef t' [d] = A
        clear h h1 ih
        split_ifs <;> omega
      | a :: t', e :: u' =>
        have h1 := ih t' (e :: u') (by simp only [List.length_cons] at h ⊢; omega)
        have h2 := ih (a :: t') u' (by simp only [List.length_cons] at h ⊢; omega)
        have h3 := ih t' u' (by simp only [List.length_cons] at h ⊢; omega)
        simp only [List.cons_append] at h1 h2 h3 ⊢
        rw [levRef_cons_cons a e (t' ++ [c]) (u' ++ [d]),
            levRef_cons_cons a e t' u',
            levRef_cons_cons a e t' (u' ++ [d]),
            levRef_cons_cons a e (t' ++ [c]) u',
            h1, h2, h3]
        generalize levRef t' (e :: (u' ++ [d])) = X4
        generalize levRef (t' ++ [c]) (e :: u') = X5
        generalize levRef (a :: t') (u' ++ [d]) = X6
        generalize levRef (a :: (t' ++ [c])) u' = X7
        generalize levRef t' (u' ++ [d]) = X8
        generalize levRef (t' ++ [c]) u' = X9
        generalize levRef t' (e :: u') = X1
        generalize levRef (a :: t') u' = X2
        generalize levRef t' u' = X3
        clear h h1 h2 h3 ih
        have hdist : ∀ p q r : ℕ, p + min q r = min (p + q) (p + r) := fun p q r => by omega
        by_cases hae : a = e
        · by_cases hcd : c = d
          · simp only [if_pos hae, if_pos hcd]
          · simp only [if_pos hae, if_neg hcd]
        · by_cases hcd : c = d
          · simp only [if_neg hae, if_pos hcd]
          · simp only [if_neg hae, if_neg hcd]
            simp only [hdist]
            ac_rfl
  exact fun t u => main (t.length + u.length) t u le_rfl

theorem levNextAux_spec (c : Char) (t : List Char) : ∀ (bs u : List Char),
    levNextAux c bs (specTail t u bs) (levRef t u) (levRef (t ++ [c]) u) =
      specTail (t ++ [c]) u bs := by
  intro bs
  induction bs with
  | nil => intro u; rfl
  | cons b bs ihb =>
    intro u
    simp only [specTail, levNextAux]
    rw [show (if c = b then levRef t u
          else 1 + min (levRef t (u ++ [b])) (min (levRef (t ++ [c]) u) (levRef t u))) =
          levRef (t ++ [c]) (u ++ [b]) from (levRef_snoc c b t u).symm]
    rw [ihb (u ++ [b])]

theorem levNextRow_spec (c : Char) (s2 t : List Char) :
    levNextRow c s2 (specRow s2 t) (t.length + 1) = specRow s2 (t ++ [c]) := by
  have h0 : levRef t [] = t.length := levRef_nil_right t
  have h1 : levRef (t ++ [c]) [] = t.length + 1 := by
    rw [levRef_nil_right]; simp
  have haux := levNextAux_spec c t s2 []
  rw [h0, h1] at haux
  simp only [levNextRow, specRow, List.tail_cons, List.headD_cons]
  rw [List.cons.injEq]
  exact ⟨by simp, haux⟩

theorem levLoop_spec (s2 : List Char) : ∀ (cs t : List Char),
    levLoop s2 cs (specRow s2 t) t.length = specRow s2 (t ++ cs) := by
  intro cs
  induction cs with
  | nil => intro t; simp [levLoop]
  | cons c cs ihc =>
    intro t
    simp only [levLoop]
    rw [levNextRow_spec]
    have := ihc (t ++ [c])
    simp only [List.length_append, List.length_cons, List.length_nil] at this
    simpa using this

theorem specTail_nil_left : ∀ (bs u : List Char),
    specTail [] u bs = List.range' (u.length + 1) bs.length := by
  intro bs
  induction bs with
  | nil => intro u; rfl
  | cons b bs ihb =>
    intro u
    have hind := ihb (u ++ [b])
    simp only [List.length_append, List.length_cons, List.length_nil] at hind
    simp only [specTail, levRef_nil_left, List.length_append, List.length_cons,
      List.length_nil, List.range']
    rw [List.cons.injEq]
    refine ⟨by omega, ?_⟩
    rw [hind]

theorem specRow_nil (s2 : List Char) : specRow s2 [] = List.range (s2.length + 1) := by
  simp only [specRow, List.length_nil, specTail_nil_left, List.range_eq_range']
  rfl

theorem specTail_getLast (t : List Char) : ∀ (bs u : List Char),
    (levRef t u :: specTail t u bs).getLastD 0 = levRef t (u ++ bs) := by
  intro bs
  induction bs with
  | nil => intro u; simp [specTail]
  | cons b bs ihb =>
    intro u
    simp only [specTail, List.getLastD_cons]
    have := ihb (u ++ [b])
    simp only [List.getLastD_cons] at this ⊢
    rw [this]
    simp

/-- The source DP computes the textbook edit distance. -/
theorem levDistance_eq_levRef (s1 s2 : List Char) : levDistance s1 s2 = levRef s1 s2 := by
  have hrow : levFinalRow s1 s2 = specRow s2 s1 := by
    have := levLoop_spec s2 s1 []
    simp only [List.length_nil, List.nil_append] at this
    rw [levFinalRow, ← specRow_nil s2, this]
  rw [levDistance, hrow, specRow, show (s1.length : ℕ) = levRef s1 [] from
    (levRef_nil_right s1).symm]
  have := specTail_getLast s1 s2 []
  simp only [List.nil_append] at this
  rw [this]

/-- Edit distance is bounded by the longer length. -/
theorem levRef_le_max : ∀ xs ys : List Char, levRef xs ys ≤ max xs.length ys.length := by
  have main : ∀ n xs ys, List.length xs + List.length ys ≤ n →
      levRef xs ys ≤ max xs.length ys.length := by
    intro n
    induction n with
    | zero =>
      intro xs ys h
      have hx : xs = [] := List.length_eq_zero.mp (by omega)
      have hy : ys = [] := List.length_eq_zero.mp (by omega)
      subst hx; subst hy; simp [levRef]
    | succ n ih =>
      intro xs ys h
      match xs, ys with
      | [], ys => simp [levRef_nil_left]
      | x :: xs, [] => simp [levRef_nil_right]
      | x :: xs, y :: ys =>
        rw [levRef_cons_cons]
        have h3 := ih xs ys (by simp at h ⊢; omega)
        split_ifs with hxy
        · simp only [List.length_cons]; omega
        · simp only [List.length_cons]; omega
  exact fun xs ys => main (xs.length + ys.length) xs ys le_rfl

/-! ### Behaviour of the Jaro loops on identical inputs -/

theorem getD_replicate {α : Type} (x d : α) : ∀ (m j : ℕ),
    (List.replicate m x).getD j d = if j < m then x else d := by
  intro m
  induction m with
  | zero => intro j; simp
  | succ m ihm =>
    intro j
    cases j with
    | zero => simp [List.replicate]
    | succ j => simpa [List.replicate, List.getD_cons_succ] using ihm j

/-- Value of `getD` on the mask `true^k ++ false^m`. -/
theorem getD_mask (k m j : ℕ) (d : Bool) :
    (List.replicate k true ++ List.replicate m false).getD j d =
      if j < k then true else if j < k + m then false else d := by
  by_cases h1 : j < k
  · rw [List.getD_append _ _ _ _ (by simpa using h1), getD_replicate, if_pos h1, if_pos h1]
  · rw [List.getD_append_right _ _ _ _ (by simpa using h1), getD_replicate, if_neg h1]
    have hk : (List.replicate k true).length = k := by simp
    by_cases h2 : j < k + m
    · rw [if_pos h2, if_pos (by simp; omega)]
    · rw [if_neg h2, if_neg (by simp; omega)]

theorem mask_set : ∀ (k : ℕ) (rest : List Bool),
    (List.replicate k true ++ false :: rest).set k true =
      List.replicate (k + 1) true ++ rest := by
  intro k
  induction k with
  | zero => intro rest; simp [List.replicate]
  | succ k ihk =>
    intro rest
    rw [List.replicate_succ, List.cons_append,
      show (true :: (List.replicate k true ++ false :: rest)).set (k + 1) true =
        true :: ((List.replicate k true ++ false :: rest).set k true) from rfl,
      ihk, List.replicate_succ (n := k + 1), List.cons_append]

theorem replicate_succ_append {α : Type} (x : α) (k : ℕ) :
    List.replicate (k + 1) x = List.replicate k x ++ [x] := by
  simpa using List.replicate_succ' (n := k) (a := x)

/-- Soundness of `jScan`: a hit satisfies the predicate. -/
theorem jScan_eq_some (s1 s2 : List Char) (i : ℕ) (s2m : List Bool) :
    ∀ fuel j j', jScan s1 s2 i s2m j fuel = some j' →
      j ≤ j' ∧ j' < j + fuel ∧ s2m.getD j' true = false ∧
        s1.getD i charD0 = s2.getD j' charD1 := by
  intro fuel
  induction fuel with
  | zero => intro j j' h; simp [jScan] at h
  | succ fuel ihf =>
    intro j j' h
    rw [jScan] at h
    split_ifs at h with hp
    · cases h; exact ⟨le_rfl, by omega, hp.1, hp.2⟩
    · obtain ⟨h1, h2, h3, h4⟩ := ihf (j + 1) j' h
      exact ⟨by omega, by omega, h3, h4⟩

/-- Completeness of `jScan`: if everything before `target` fails the
predicate and `target` satisfies it, the scan stops at `target`. -/
theorem jScan_finds (s1 s2 : List Char) (i : ℕ) (s2m : List Bool) (target : ℕ)
    (hpred : s2m.getD target true = false ∧ s1.getD i charD0 = s2.getD target charD1) :
    ∀ fuel j, j ≤ target → target < j + fuel →
      (∀ j', j ≤ j' → j' < target →
        ¬(s2m.getD j' true = false ∧ s1.getD i charD0 = s2.getD j' charD1)) →
      jScan s1 s2 i s2m j fuel = some target := by
  intro fuel
  induction fuel with
  | zero => intro j h1 h2 _; omega
  | succ fuel ihf =>
    intro j h1 h2 hno
    rw [jScan]
    by_cases hj : j = target
    · subst hj; rw [if_pos hpred]
    · rw [if_neg (hno j le_rfl (by omega))]
      exact ihf (j + 1) (by omega) (by omega) (fun j' hj1 hj2 => hno j' (by omega) hj2)

/-- On identical strings the match loop marks everything, in order. -/
theorem jaroMatchLoop_self (s : List Char) : ∀ k, k ≤ s.length →
    (List.range k).foldl (jaroStep s s)
        (List.replicate s.length false, List.replicate s.length false, 0) =
      (List.replicate k true ++ List.replicate (s.length - k) false,
       List.replicate k true ++ List.replicate (s.length - k) false, k) := by
  intro k
  induction k with
  | zero => intro _; simp
  | succ k ihk =>
    intro hk
    rw [List.range_succ, List.foldl_append, ihk (by omega)]
    simp only [List.foldl_cons, List.foldl_nil]
    have hw : 1 ≤ jaroWindow s.length s.length := le_max_right _ _
    have hkn : k < s.length := by omega
    have hkfin : k < min (k + jaroWindow s.length s.length + 1) s.length := by
      rcases le_or_lt (k + jaroWindow s.length s.length + 1) s.length with h | h
      · rw [min_eq_left h]; omega
      · rw [min_eq_right (by omega)]; omega
    have hpred :
        (List.replicate k true ++ List.replicate (s.length - k) false).getD k true = false ∧
        s.getD k charD0 = s.getD k charD1 := by
      refine ⟨?_, ?_⟩
      · rw [getD_mask, if_neg (lt_irrefl k), if_pos (by omega)]
      · rw [List.getD_eq_getElem _ _ hkn, List.getD_eq_getElem _ _ hkn]
    have hscan := jScan_finds s s k
      (List.replicate k true ++ List.replicate (s.length - k) false) k hpred
      (min (k + jaroWindow s.length s.length + 1) s.length - (k - jaroWindow s.length s.length))
      (k - jaroWindow s.length s.length)
      (by omega) (by omega)
      (by
        intro j' h1 h2
        rw [getD_mask, if_pos h2]
        simp)
    have hset :
        (List.replicate k true ++ List.replicate (s.length - k) false).set k true =
          List.replicate (k + 1) true ++ List.replicate (s.length - (k + 1)) false := by
      rw [show s.length - k = (s.length - (k + 1)) + 1 from by omega, List.replicate_succ,
        mask_set]
    simp only [jaroStep]
    rw [hscan]
    simp only [hset]

/-- On identical strings the transposition loop counts zero. -/
theorem jaroTrans_self (s : List Char) : ∀ k, k ≤ s.length →
    (List.range k).foldl (transStep s s (List.replicate s.length true)
      (List.replicate s.length true)) (0, 0) = (k, 0) := by
  intro k
  induction k with
  | zero => intro _; simp
  | succ k ihk =>
    intro hk
    rw [List.range_succ, List.foldl_append, ihk (by omega)]
    have hkn : k < s.length := by omega
    simp only [List.foldl_cons, List.foldl_nil, transStep]
    rw [getD_replicate, if_pos hkn]
    have hnext : nextTrue (List.replicate s.length true) k = k := by
      rw [nextTrue]
      simp only [List.length_replicate]
      rw [show s.length - k = (s.length - (k + 1)) + 1 from by omega, nextTrueGo,
        getD_replicate, if_pos hkn]
      simp
    simp only [if_true, hnext]
    rw [List.getD_eq_getElem _ _ hkn, List.getD_eq_getElem _ _ hkn]
    simp

theorem jaro_similarity_self (s : List Char) (hs : s ≠ []) : jaro_similarity s s = 1 := by
  have hn : 0 < s.length := List.length_pos.mpr hs
  have hloop := jaroMatchLoop_self s s.length le_rfl
  simp only [Nat.sub_self, List.replicate_zero, List.append_nil] at hloop
  have htrans := jaroTrans_self s s.length le_rfl
  rw [jaro_similarity, if_neg (by omega), if_neg (by push_neg; omega)]
  simp only [jaroMatchLoop, hloop]
  rw [if_neg (by omega)]
  simp only [jaroTranspositions, htrans]
  have hq : (s.length : ℚ) ≠ 0 := by positivity
  field_simp
  ring

theorem jaro_winkler_self (s : String) (hs : s ≠ "") :
    jaro_winkler_similarity s s = 1 := by
  have hd : s.data ≠ [] := fun h => hs (by
    cases s with
    | mk l => simp at h; simp [h])
  rw [jaro_winkler_similarity, if_neg (by
    simp only [Bool.or_self, String.isEmpty_iff]
    exact hs)]
  rw [jaro_similarity_self s.data hd]
  ring

theorem classify_contract_empty_left {E : Type} (px : PyStdlib) (be : EmbedBackend E)
    (cfg : ClassifierConfig) (t a : String) (ctx : Option Unit) :
    classify_contract px be cfg "" t a ctx = missingTextResult a := by
  rw [classify_contract, if_pos (by rw [show ("" : String).isEmpty = true from rfl,
    Bool.true_or])]

theorem classify_contract_empty_right {E : Type} (px : PyStdlib) (be : EmbedBackend E)
    (cfg : ClassifierConfig) (c a : String) (ctx : Option Unit) :
    classify_contract px be cfg c "" a ctx = missingTextResult a := by
  rw [classify_contract, if_pos (by rw [show ("" : String).isEmpty = true from rfl,
    Bool.or_true])]

/-- C3: for every oracle, backend, configuration and attribute name, if the
contract text or the template text is empty, `classify_contract` returns
the missing-text result: `is_standard = false`, `match_type = NO_MATCH`,
`confidence = 0`, explanation exactly `"Missing text for comparison"`.  No
matcher stage is consulted: the oracle and backend are universally
quantified, so no stage output can influence the result. -/
theorem C3_missing_text {E : Type} (px : PyStdlib) (be : EmbedBackend E)
    (cfg : ClassifierConfig) (t a : String) (ctx : Option Unit) :
    (classify_contract px be cfg "" t a ctx = missingTextResult a ∧
     classify_contract px be cfg t "" a ctx = missingTextResult a) ∧
    (missingTextResult a).is_standard = false ∧
    (missingTextResult a).match_type = .NO_MATCH ∧
    (missingTextResult a).confidence = 0 ∧
    (missingTextResult a).explanation = "Missing text for comparison" :=
  ⟨⟨classify_contract_empty_left px be cfg t a ctx,
    classify_contract_empty_right px be cfg t a ctx⟩, rfl, rfl, rfl, rfl⟩

/-- C7 counterexample: the similarity of two empty strings is `0.0`, not
the claimed `1.0` — line 182 of the source returns `0.0` whenever either
string is empty, before the `max_len == 0` branch can fire. -/
theorem C7_counterexample :
    levenshtein_similarity "" "" = 0 ∧ ¬ levenshtein_similarity "" "" = 1 := by
  constructor
  · rfl
  · intro h
    exact absurd h (by decide)

/-- C7 (amended): for non-empty inputs the similarity is
`1 - edit_distance / max(len1, len2)` with the textbook edit distance
(`levRef`), and it is `0.0` whenever either input is empty — including the
both-empty case, which the specification mis-states as `1.0`. -/
theorem C7_levenshtein_similarity (s1 s2 : String) :
    (s1 ≠ "" → s2 ≠ "" →
      levenshtein_similarity s1 s2
        = 1 - (levRef s1.data s2.data : ℚ) / (max s1.length s2.length : ℚ)) ∧
    ((s1 = "" ∨ s2 = "") → levenshtein_similarity s1 s2 = 0) := by
  constructor
  · intro h1 h2
    rw [levenshtein_similarity, if_neg (by
      simp only [Bool.or_eq_true, String.isEmpty_iff]
      rintro (rfl | rfl)
      · exact h1 rfl
      · exact h2 rfl)]
    have hmax : max s1.length s2.length ≠ 0 := by
      intro h
      apply h1
      have : s1.length = 0 := by omega
      cases s1 with
      | mk l =>
        rw [show (String.mk l).length = l.length from rfl] at this
        rw [List.length_eq_zero] at this
        rw [this]
    rw [if_neg hmax, levDistance_eq_levRef, Nat.cast_max]
  · rintro (rfl | rfl)
    · rw [levenshtein_similarity, if_pos (by rw [show ("" : String).isEmpty = true from rfl,
        Bool.true_or])]
    · rw [levenshtein_similarity, if_pos (by rw [show ("" : String).isEmpty = true from rfl,
        Bool.or_true])]

/-- C7 witness: on `"ab"` and `"b"` the amended formula applies and the
similarity evaluates to `1/2` (one deletion over maximal length 2). -/
theorem C7_witness : levenshtein_similarity "ab" "b" = 1 / 2 := by
  have h := (C7_levenshtein_similarity "ab" "b").1 (by decide) (by decide)
  rw [h, ← levDistance_eq_levRef]
  norm_num [show levDistance "ab".data "b".data = 1 from rfl,
    show ("ab" : String).length = 2 from rfl, show ("b" : String).length = 1 from rfl]

/-- C8: the Jaro-Winkler similarity of every non-empty string with itself
is `1.0`, and the similarity of the empty string with every non-empty
string is `0.0` (the early exit at line 218 of the source). -/
theorem C8_jaro_winkler (s x : String) :
    (s ≠ "" → jaro_winkler_similarity s s = 1) ∧
    (x ≠ "" → jaro_winkler_similarity "" x = 0) := by
  constructor
  · exact jaro_winkler_self s
  · intro _
    rw [jaro_winkler_similarity, if_pos (by rw [show ("" : String).isEmpty = true from rfl,
      Bool.true_or])]

/-- C8 witness: both parts at concrete inputs. -/
theorem C8_witness :
    jaro_winkler_similarity "medicare" "medicare" = 1 ∧
    jaro_winkler_similarity "" "x" = 0 :=
  ⟨(C8_jaro_winkler "medicare" "x").1 (by decide),
   (C8_jaro_winkler "medicare" "x").2 (by decide)⟩

/-- C4: every cascade stage accepts on a closed lower bound.  The regex
stage accepts exactly when the pattern score reaches the (possibly
adjusted) threshold `cc_regex_adjusted_threshold`; with business rules
disabled the fuzzy and semantic stages accept exactly when their scores
reach `fuzzy_threshold` / `semantic_threshold` (so an exactly-equal score
is accepted); and for every configuration a score strictly below the
threshold is rejected. -/
theorem C4_threshold_boundary {E : Type} (px : PyStdlib) (be : EmbedBackend E)
    (cfg : ClassifierConfig) (c t a : String) (ctx : Option Unit) :
    ((cc_try_regex_match px cfg c t a ctx).is_standard = true ↔
      cc_regex_adjusted_threshold px cfg c t a ≤ (pm_match px c t a ctx).1) ∧
    (cfg.enable_business_rules = false →
      ((cc_try_fuzzy_match px cfg c t a).is_standard = true ↔
        cfg.fuzzy_threshold ≤ (fm_match px c t a).1)) ∧
    ((fm_match px c t a).1 < cfg.fuzzy_threshold →
      (cc_try_fuzzy_match px cfg c t a).is_standard = false) ∧
    (cfg.enable_business_rules = false →
      ((cc_try_semantic_match px be cfg c t a).is_standard = true ↔
        cfg.semantic_threshold ≤ (sm_match px be c t a).1)) ∧
    ((sm_match px be c t a).1 < cfg.semantic_threshold →
      (cc_try_semantic_match px be cfg c t a).is_standard = false) := by
  refine ⟨?_, ?_, ?_, ?_, ?_⟩
  · simp [cc_try_regex_match]
  · intro h
    simp [cc_try_fuzzy_match, h]
  · intro h
    have hd : decide (cfg.fuzzy_threshold ≤ (fm_match px c t a).1) = false :=
      decide_eq_false (not_le.mpr h)
    simp [cc_try_fuzzy_match, hd]
  · intro h
    simp [cc_try_semantic_match, h]
  · intro h
    have hd : decide (cfg.semantic_threshold ≤ (sm_match px be c t a).1) = false :=
      decide_eq_false (not_le.mpr h)
    simp [cc_try_semantic_match, hd]

/-- C4 witness: with business rules disabled, a concrete fuzzy score below
the default threshold `0.8` is rejected. -/
theorem C4_witness :
    (cc_try_fuzzy_match constPx { enable_business_rules := false } "a" "b" "X").is_standard
      = false :=
  (C4_threshold_boundary constPx constBE { enable_business_rules := false }
    "a" "b" "X" none).2.2.1 (by with_unfolding_all decide)

theorem find?_keyed {α : Type} (g : String → String × α) (hg : ∀ k, (g k).1 = k)
    (a : String) :
    ∀ keys : List String,
      (keys.map g).find? (fun p => p.1 == a)
        = (keys.find? (fun k => k == a)).map g := by
  intro keys
  induction keys with
  | nil => rfl
  | cons k ks ih =>
    by_cases h : (k == a) = true
    · simp [List.find?_cons, hg, h]
    · simp [List.find?_cons, hg, h, ih]

theorem find?_beq_self (a : String) :
    ∀ keys : List String, a ∈ keys → keys.find? (fun k => k == a) = some a := by
  intro keys
  induction keys with
  | nil => intro h; cases h
  | cons k ks ih =>
    intro h
    by_cases hk : (k == a) = true
    · have : k = a := by simpa using hk
      simp [List.find?_cons, hk, this]
    · have ha : a ∈ ks := by
        rcases List.mem_cons.mp h with rfl | h2
        · exact absurd (by simp) hk
        · exact h2
      simp [List.find?_cons, hk, ih ha]

theorem find?_beq_none {α : Type} (a : String) (l : List (String × α))
    (h : a ∉ l.map Prod.fst) : l.find? (fun p => p.1 == a) = none := by
  rw [List.find?_eq_none]
  intro x hx hbeq
  exact h (List.mem_map.mpr ⟨x, hx, by simpa using hbeq⟩)

/-- C10: `classify_all_attributes` produces exactly one result per
contract-attribute key, in order; a key absent from the contract attributes
(in particular one present only in the template attributes) produces no
result at all; and a key present in the contract but absent from the
template is classified against the empty default template text and so
yields the `NO_MATCH` missing-text result. -/
theorem C10_classify_all_attributes {E : Type} (px : PyStdlib) (be : EmbedBackend E)
    (cfg : ClassifierConfig) (ca ta : List (String × String))
    (ctxs : Option (List (String × Unit))) (a : String) :
    ((classify_all_attributes px be cfg ca ta ctxs).map Prod.fst = ca.map Prod.fst) ∧
    (a ∉ ca.map Prod.fst →
      (classify_all_attributes px be cfg ca ta ctxs).find? (fun p => p.1 == a) = none) ∧
    (a ∈ ca.map Prod.fst → a ∉ ta.map Prod.fst →
      (classify_all_attributes px be cfg ca ta ctxs).find? (fun p => p.1 == a)
        = some (a, missingTextResult a)) := by
  have hfst : ∀ (g : String → String × ClassificationResult), (∀ k, (g k).1 = k) →
      ∀ keys : List String, (keys.map g).map Prod.fst = keys := by
    intro g hg keys
    induction keys with
    | nil => rfl
    | cons k ks ih => simp [hg, ih]
  have hmap : classify_all_attributes px be cfg ca ta ctxs
      = (ca.map Prod.fst).map (fun k =>
          (k, classify_contract px be cfg (dictGet ca k "") (dictGet ta k "") k
            (match ctxs with
             | some cs => (cs.find? (fun p => p.1 == k)).map Prod.snd
             | none => none))) := rfl
  refine ⟨?_, ?_, ?_⟩
  · rw [hmap, hfst _ (fun _ => rfl)]
  · intro hnot
    rw [hmap, find?_keyed _ (fun _ => rfl) a]
    have hnone : (ca.map Prod.fst).find? (fun k => k == a) = none :=
      List.find?_eq_none.mpr (fun x hx hbeq => hnot (by
        have hxa : x = a := by simpa using hbeq
        exact hxa ▸ hx))
    rw [hnone]
    rfl
  · intro hmem hnt
    rw [hmap, find?_keyed _ (fun _ => rfl) a, find?_beq_self a _ hmem]
    have hta : dictGet ta a "" = "" := by
      rw [dictGet, find?_beq_none a ta hnt]
      rfl
    simp only [Option.map_some']
    rw [hta, classify_contract_empty_right]

/-- C10 witness: a one-key contract dictionary against a disjoint template
dictionary yields exactly the missing-text result for that key. -/
theorem C10_witness :
    (classify_all_attributes constPx constBE {} [("Medicare Fee Schedule", "x")]
        [("Medicaid Fee Schedule", "y")] none).find?
        (fun p => p.1 == "Medicare Fee Schedule")
      = some ("Medicare Fee Schedule", missingTextResult "Medicare Fee Schedule") :=
  (C10_classify_all_attributes constPx constBE {} [("Medicare Fee Schedule", "x")]
    [("Medicaid Fee Schedule", "y")] none "Medicare Fee Schedule").2.2
    (by decide) (by decide)

theorem analyze_methodology_of_no_std (px : PyStdlib) (text attribute_name : String)
    (hstd : standard_indicators.find? (fun ind => strContains (pyLower text) ind) = none) :
    analyze_methodology px text attribute_name =
      (if 2 ≤ (am_triggered px text).length then
        { methodology_type := ((methodology_map.find?
              (fun p => p.1 == (am_triggered px text).headD "")).map Prod.snd).getD .CUSTOM,
          is_standard := false, confidence := 9 / 10,
          evidence := (((check_non_standard_indicators px text).filter
            (fun p => p.2.1)).flatMap (fun p => p.2.2)).take 5,
          explanation := "Non-standard: Multiple indicators found (" ++
            String.intercalate ", " (am_triggered px text) ++ ")" }
       else if (am_triggered px text).length = 1 then
        { methodology_type := (((methodology_map_single.find? (fun p =>
              p.1 == (am_triggered px text).headD "")).map Prod.snd).getD
              (.CUSTOM, "Custom methodology")).1,
          is_standard := false, confidence := 4 / 5,
          evidence := (((check_non_standard_indicators px text).find? (fun p =>
            p.1 == (am_triggered px text).headD "")).map (fun p => p.2.2)).getD [],
          explanation := "Non-standard: " ++ (((methodology_map_single.find? (fun p =>
            p.1 == (am_triggered px text).headD "")).map Prod.snd).getD
            (.CUSTOM, "Custom methodology")).2 }
       else match am_medicare_branch px text attribute_name with
         | some r => r
         | none =>
           { methodology_type := .UNKNOWN, is_standard := true, confidence := 1 / 2,
             evidence := ["No clear methodology pattern found"],
             explanation := "Cannot determine methodology - assuming standard" }) := by
  simp only [analyze_methodology, am_triggered]
  rw [hstd]

/-- C5: with no explicit standard-methodology phrase found in the text,
`analyze_methodology` returns: for at least two triggered non-standard
indicators, a non-standard analysis at confidence 0.90 whose methodology
type is the first triggered indicator mapped through `methodology_map` and
whose evidence list is capped at five snippets; for exactly one triggered
indicator, a non-standard analysis at confidence 0.80 with that indicator
mapped through `methodology_map_single`; and for none, when the
Medicare/Medicaid percentage branch yields nothing, the UNKNOWN analysis
treated as standard at confidence 0.5. -/
theorem C5_analyze_methodology (px : PyStdlib) (text attribute_name : String)
    (hstd : standard_indicators.find? (fun ind => strContains (pyLower text) ind) = none) :
    (2 ≤ (am_triggered px text).length →
      (analyze_methodology px text attribute_name).is_standard = false ∧
      (analyze_methodology px text attribute_name).confidence = 9 / 10 ∧
      (analyze_methodology px text attribute_name).methodology_type =
        ((methodology_map.find?
          (fun p => p.1 == (am_triggered px text).headD "")).map Prod.snd).getD .CUSTOM ∧
      (analyze_methodology px text attribute_name).evidence.length ≤ 5) ∧
    ((am_triggered px text).length = 1 →
      (analyze_methodology px text attribute_name).is_standard = false ∧
      (analyze_methodology px text attribute_name).confidence = 4 / 5 ∧
      (analyze_methodology px text attribute_name).methodology_type =
        (((methodology_map_single.find? (fun p =>
          p.1 == (am_triggered px text).headD "")).map Prod.snd).getD
          (.CUSTOM, "Custom methodology")).1) ∧
    ((am_triggered px text).length = 0 →
      am_medicare_branch px text attribute_name = none →
      analyze_methodology px text attribute_name =
        { methodology_type := .UNKNOWN, is_standard := true, confidence := 1 / 2,
          evidence := ["No clear methodology pattern found"],
          explanation := "Cannot determine methodology - assuming standard" }) := by
  refine ⟨?_, ?_, ?_⟩
  · intro h2
    rw [analyze_methodology_of_no_std px text attribute_name hstd, if_pos h2]
    refine ⟨rfl, rfl, rfl, ?_⟩
    simp only [List.length_take]
    omega
  · intro h1
    rw [analyze_methodology_of_no_std px text attribute_name hstd,
      if_neg (by omega), if_pos h1]
    exact ⟨rfl, rfl, rfl⟩
  · intro h0 hmed
    rw [analyze_methodology_of_no_std px text attribute_name hstd,
      if_neg (by omega), if_neg (by omega), hmed]

/-- C5 witness: on the empty text no indicator triggers, the Medicare
branch yields nothing, and the UNKNOWN default is returned. -/
theorem C5_witness :
    analyze_methodology constPx "" "A"
      = { methodology_type := .UNKNOWN, is_standard := true, confidence := 1 / 2,
          evidence := ["No clear methodology pattern found"],
          explanation := "Cannot determine methodology - assuming standard" } :=
  (C5_analyze_methodology constPx "" "A" rfl).2.2 rfl rfl

/-- C6 counterexample: on `"retroactive payment within 30 days"` the only
qualifier category with matches is `time_based`, and qualifiers are found,
yet `analyze_qualifiers` returns confidence `0.5`, not the claimed `0.7`:
the category name is appended to `qualifier_types` once per matching
pattern, and the `0.7` branch requires `len(qualifier_types) == 1`, so two
matching `time_based` patterns fall through to the `0.5` branch. -/
theorem C6_counterexample :
    (∀ cat ∈ qualifier_patterns, ∀ pat ∈ cat.2,
      C6px.findall pat true "retroactive payment within 30 days" ≠ [] →
        cat.1 = "time_based") ∧
    (analyze_qualifiers C6px "retroactive payment within 30 days"
        "Medicare Timely Filing").has_qualifiers = true ∧
    (analyze_qualifiers C6px "retroactive payment within 30 days"
        "Medicare Timely Filing").confidence = 1 / 2 ∧
    ¬ (analyze_qualifiers C6px "retroactive payment within 30 days"
        "Medicare Timely Filing").confidence = 7 / 10 := by
  refine ⟨by decide, rfl, rfl, ?_⟩
  have h : (analyze_qualifiers C6px "retroactive payment within 30 days"
      "Medicare Timely Filing").confidence = 1 / 2 := rfl
  rw [h]
  norm_num

theorem foldl_preserve {α β : Type} (P : β → Prop) (f : β → α → β)
    (hstep : ∀ b a, P b → P (f b a)) :
    ∀ (l : List α) (b : β), P b → P (l.foldl f b) := by
  intro l
  induction l with
  | nil => intro b hb; exact hb
  | cons x xs ih => intro b hb; exact ih (f b x) (hstep b x hb)

theorem aq_scan_le (px : PyStdlib) (text attribute_name : String) :
    (aq_scan px text attribute_name).2.length ≤ (aq_scan px text attribute_name).1.length := by
  have hinner : ∀ (cat : String × List String) (b : List String × List String),
      b.2.length ≤ b.1.length →
      ((cat.2.foldl (fun (acc : List String × List String) pat =>
        let ms := px.findall pat true text
        if ms.isEmpty then acc else (acc.1 ++ ms, acc.2 ++ [cat.1])) b).2.length ≤
       (cat.2.foldl (fun (acc : List String × List String) pat =>
        let ms := px.findall pat true text
        if ms.isEmpty then acc else (acc.1 ++ ms, acc.2 ++ [cat.1])) b).1.length) := by
    intro cat
    refine foldl_preserve _ _ ?_ cat.2
    intro b pat hb
    dsimp only
    by_cases hms : (px.findall pat true text).isEmpty
    · rw [if_pos hms]; exact hb
    · rw [if_neg hms]
      have hpos : 0 < (px.findall pat true text).length := by
        rcases h : px.findall pat true text with _ | ⟨x, xs⟩
        · rw [h] at hms; exact absurd rfl hms
        · simp
      simp only [List.length_append, List.length_cons, List.length_nil]
      omega
  have hbase : ((qualifier_patterns.foldl (fun (acc : List String × List String) cat =>
      cat.2.foldl (fun (acc : List String × List String) pat =>
        let ms := px.findall pat true text
        if ms.isEmpty then acc else (acc.1 ++ ms, acc.2 ++ [cat.1])) acc)
      ([], [])).2.length ≤
      (qualifier_patterns.foldl (fun (acc : List String × List String) cat =>
      cat.2.foldl (fun (acc : List String × List String) pat =>
        let ms := px.findall pat true text
        if ms.isEmpty then acc else (acc.1 ++ ms, acc.2 ++ [cat.1])) acc)
      ([], [])).1.length) := by
    refine foldl_preserve
      (fun (acc : List String × List String) => acc.2.length ≤ acc.1.length)
      _ ?_ qualifier_patterns ([], []) (by simp)
    intro b cat hb
    exact hinner cat b hb
  rw [aq_scan]
  by_cases hfs : strContains attribute_name "Fee Schedule" = true
  · rw [if_pos hfs]
    refine foldl_preserve
      (fun (acc : List String × List String) => acc.2.length ≤ acc.1.length)
      _ ?_ fee_qualifier_patterns _ hbase
    intro b pat hb
    dsimp only
    by_cases hs : (px.search pat false false text).isSome
    · rw [if_pos hs]
      simp only [List.length_append, List.length_cons, List.length_nil]
      omega
    · rw [if_neg hs]; exact hb
  · rw [if_neg hfs]
    exact hbase

theorem eq_singleton_of_length_one {x : String} :
    ∀ {l : List String}, l.length = 1 → l.head?.getD "" = x → l = [x] := by
  intro l
  match l with
  | [] => intro h; cases h
  | [a] => intro _ h2; simp only [List.head?_cons, Option.getD_some] at h2; rw [h2]
  | a :: b :: t => intro h; simp at h

/-- C6 (amended): the full confidence mapping of `analyze_qualifiers`.
Writing `(found, types)` for the accumulated `(qualifiers_found,
qualifier_types)` pair: confidence is `1.0` when nothing is found; `0.7`
when `types` is exactly `["time_based"]`, i.e. exactly one qualifier
pattern has matches and it is a `time_based` one (if two `time_based`
patterns match, the only category present is still time-based but this
branch is not taken); `0.5` when neither applies and at most two matches
were collected; `0.2` otherwise; `qualifiers_found` is capped at 10. -/
theorem C6_analyze_qualifiers (px : PyStdlib) (text attribute_name : String)
    (found types : List String)
    (hacc : aq_scan px text attribute_name = (found, types)) :
    (analyze_qualifiers px text attribute_name).has_qualifiers
      = decide (0 < found.length) ∧
    (found = [] → (analyze_qualifiers px text attribute_name).confidence = 1) ∧
    (types = ["time_based"] →
      (analyze_qualifiers px text attribute_name).confidence = 7 / 10) ∧
    (found ≠ [] → types ≠ ["time_based"] → found.length ≤ 2 →
      (analyze_qualifiers px text attribute_name).confidence = 1 / 2) ∧
    (found ≠ [] → types ≠ ["time_based"] → 2 < found.length →
      (analyze_qualifiers px text attribute_name).confidence = 1 / 5) ∧
    (analyze_qualifiers px text attribute_name).qualifiers_found.length ≤ 10 := by
  have hle := aq_scan_le px text attribute_name
  rw [hacc] at hle
  simp only [analyze_qualifiers, hacc]
  refine ⟨by trivial, ?_, ?_, ?_, ?_, ?_⟩
  · rintro rfl
    rfl
  · rintro rfl
    have h1 : (0 : ℕ) < found.length := by
      simp at hle
      omega
    simp [h1, Nat.pos_iff_ne_zero]
  · intro hne hnt hle2
    have h1 : (0 : ℕ) < found.length := List.length_pos.mpr hne
    have h2 : ¬(types.length = 1 ∧ types.head?.getD "" = "time_based") := by
      rintro ⟨ha, hb⟩
      exact hnt (eq_singleton_of_length_one ha hb)
    simp [h1, h2, hle2]
  · intro hne hnt hgt
    have h1 : (0 : ℕ) < found.length := List.length_pos.mpr hne
    have h2 : ¬(types.length = 1 ∧ types.head?.getD "" = "time_based") := by
      rintro ⟨ha, hb⟩
      exact hnt (eq_singleton_of_length_one ha hb)
    simp [h1, h2, hgt, Nat.not_le.mpr hgt]
  · simp only [List.length_take]
    omega

/-- C6 witness: on the empty text nothing is found and the confidence is
`1.0`. -/
theorem C6_witness : (analyze_qualifiers constPx "" "A").confidence = 1 :=
  (C6_analyze_qualifiers constPx "" "A" [] [] rfl).2.1 rfl

/-- C9: the placeholder path of the exact-match stage.  When the normalized
texts differ, the stage returns the confidence-0.95 EXACT acceptance
exactly when `_is_placeholder_match` holds; `_is_placeholder_match` itself
holds exactly when some placeholder indicator occurs in the template and
the `SequenceMatcher` ratio of the normalized pair reaches the threshold,
`0.70` if the template matches `medicare.*?fee schedule` case-insensitively
and `0.85` otherwise; and on the scenario pair (template
`"Rate is [Percent of Medicare] of the Medicare Fee Schedule."`, contract
`"Rate is 90% of the Medicare Fee Schedule."`) `classify_contract` returns
the EXACT placeholder acceptance at confidence 0.95. -/
theorem C9_placeholder_match :
    (∀ (px : PyStdlib) (c t a : String),
      cc_normalize_text px c ≠ cc_normalize_text px t →
      (cc_try_exact_match px c t a =
        { is_standard := true, match_type := .EXACT, confidence := 19 / 20,
          explanation := "Exact match with placeholder replacement",
          attribute_name := a } ↔ cc_is_placeholder_match px c t = true)) ∧
    (∀ (px : PyStdlib) (c t : String),
      cc_is_placeholder_match px c t =
        (placeholder_indicators.any (fun p => (px.search p false false t).isSome) &&
          (if (px.search "medicare.*?fee schedule" true false t).isSome then
            decide (7 / 10 ≤ px.ratio (cc_placeholder_normalized px c t).1
              (cc_placeholder_normalized px c t).2)
          else
            decide (17 / 20 ≤ px.ratio (cc_placeholder_normalized px c t).1
              (cc_placeholder_normalized px c t).2)))) ∧
    classify_contract C9px constBE {} c9_contract c9_template "Medicare Fee Schedule" none
      = { is_standard := true, match_type := .EXACT, confidence := 19 / 20,
          explanation := "Exact match with placeholder replacement",
          attribute_name := "Medicare Fee Schedule" } := by
  refine ⟨?_, ?_, ?_⟩
  · intro px c t a hne
    rw [cc_try_exact_match, if_neg hne]
    by_cases hp : cc_is_placeholder_match px c t = true
    · simp [hp]
    · simp only [Bool.not_eq_true] at hp
      simp [hp, ClassificationResult.mk.injEq]
  · intro px c t
    by_cases hp : placeholder_indicators.any (fun p => (px.search p false false t).isSome) = true
    · simp [cc_is_placeholder_match, hp]
    · simp only [Bool.not_eq_true] at hp
      simp [cc_is_placeholder_match, hp]
  · with_unfolding_all rfl

/-- C9 witness: the first component applied to the scenario oracle and
texts, with the normalized texts concretely unequal and the placeholder
match concretely true. -/
theorem C9_witness :
    cc_try_exact_match C9px c9_contract c9_template "Medicare Fee Schedule"
      = { is_standard := true, match_type := .EXACT, confidence := 19 / 20,
          explanation := "Exact match with placeholder replacement",
          attribute_name := "Medicare Fee Schedule" } :=
  (C9_placeholder_match.1 C9px c9_contract c9_template "Medicare Fee Schedule"
    (by decide)).mpr (by with_unfolding_all rfl)

theorem semantic_override_rejects {E : Type} (px : PyStdlib) (be : EmbedBackend E)
    (cfg : ClassifierConfig) (c t a : String)
    (hbr : cfg.enable_business_rules = true)
    (hov : (should_override_to_nonstandard px c a "semantic").1 = true) :
    (cc_try_semantic_match px be cfg c t a).is_standard = false := by
  have he : (enhance_classification px c a "semantic" ((sm_match px be c t a).1)).1
      = false := by
    simp only [enhance_classification, hov, if_true]
  by_cases hacc : decide (cfg.semantic_threshold ≤ (sm_match px be c t a).1) = true
  · simp only [cc_try_semantic_match, hacc, hbr, Bool.and_self, if_true, he,
      Bool.false_eq_true, not_false_eq_true]
  · simp only [Bool.not_eq_true] at hacc
    simp only [cc_try_semantic_match, hacc, Bool.false_and, Bool.false_eq_true, if_false]

set_option maxHeartbeats 4000000 in
set_option maxRecDepth 1000000 in
theorem c1_fuzzy_stage_eq :
    cc_try_fuzzy_match C1px {} c1_contract c1_template "X"
      = { is_standard := false, match_type := .FUZZY, confidence := 0,
          explanation := "Very high similarity - likely the same content with minor variations; Best match: levenshtein (1.00); Strong structural similarity; Many common phrases detected; OVERRIDE: Multiple non-standard indicators: custom_rates, state_specific, non_federal",
          attribute_name := "X",
          matched_sections := some (.fuzzy
            { individual_scores := [("levenshtein", 1), ("jaro_winkler", 1),
                ("token_sort", 1), ("sequence", 1), ("ngram", 1)],
              final_score := 1, structure_bonus := 1,
              contract_len := 72, template_len := 71,
              contract_processed_len := 71, template_processed_len := 71 } true) } := by
  with_unfolding_all rfl

set_option maxHeartbeats 4000000 in
set_option maxRecDepth 1000000 in
/-- C1 (code bug): on the override scenario the fuzzy stage accepts (the
composite score is 1, at the threshold 0.8) and the business-rule override
fires, producing the FUZZY result with `is_standard = false` and an
explanation carrying `OVERRIDE` — but `classify_contract` only returns a
stage result when `result.is_standard` is true, so this override result is
discarded; the semantic stage is likewise overridden for every possible
embedding backend, and the final result is the NO_MATCH
`"No matching method succeeded"` result instead of the promised terminal
FUZZY override result. -/
theorem C1_override_discarded :
    ((cc_try_fuzzy_match C1px {} c1_contract c1_template "X").is_standard = false ∧
     (cc_try_fuzzy_match C1px {} c1_contract c1_template "X").match_type = .FUZZY ∧
     strContains (cc_try_fuzzy_match C1px {} c1_contract c1_template "X").explanation
       "OVERRIDE" = true ∧
     ({} : ClassifierConfig).fuzzy_threshold ≤
       (fm_match C1px c1_contract c1_template "X").1) ∧
    (∀ (E : Type) (be : EmbedBackend E),
      classify_contract C1px be {} c1_contract c1_template "X" none
        = noMatchResult "X") := by
  constructor
  · refine ⟨by rw [c1_fuzzy_stage_eq], by rw [c1_fuzzy_stage_eq], ?_, ?_⟩
    · rw [c1_fuzzy_stage_eq]
      rfl
    · have hf : (fm_match C1px c1_contract c1_template "X").1 = 1 := by
        with_unfolding_all rfl
      rw [hf]
      norm_num
  · intro E be
    have h1 : (cc_try_exact_match C1px c1_contract c1_template "X").is_standard
        = false := by with_unfolding_all rfl
    have h2 : (cc_try_regex_match C1px {} c1_contract c1_template "X" none).is_standard
        = false := by with_unfolding_all rfl
    have h3 : (cc_try_fuzzy_match C1px {} c1_contract c1_template "X").is_standard
        = false := by rw [c1_fuzzy_stage_eq]
    have h4 : (cc_try_semantic_match C1px be {} c1_contract c1_template "X").is_standard
        = false :=
      semantic_override_rejects C1px be {} c1_contract c1_template "X" rfl rfl
    have hne : (c1_contract.isEmpty || c1_template.isEmpty) = false := rfl
    simp only [classify_contract, hne, Bool.false_eq_true, if_false,
      h1, h2, h3, h4]

set_option maxHeartbeats 8000000 in
set_option maxRecDepth 1000000 in
theorem c2_classify_eq :
    classify_contract C2px constBE {} c2_contract c2_template "Medicare Timely Filing" none
      = { is_standard := true, match_type := .SEMANTIC, confidence := 26 / 25,
          explanation := "Semantic match found (score: 1.04 >= threshold: 0.75); Very high similarity in some sections; Strong overall semantic alignment (1.00); Key terminology strongly present",
          attribute_name := "Medicare Timely Filing",
          matched_sections := some (.semantic
            { chunk_similarities := ⟨1, 1, 1⟩, document_similarity := 1,
              keyword_score := 6 / 5, final_score := 26 / 25, threshold := 3 / 4 }
            false) } := by
  with_unfolding_all rfl

/-- C2 counterexample: with an embedding backend whose cosine similarity is
identically `1` (within the legitimate `[-1, 1]` range), the scenario
classification is returned by the semantic stage with confidence `26/25`,
which exceeds `1`: the keyword score reaches `1.2`, so the semantic
composite `0.4 * 1 + 0.4 * 1 + 0.2 * 1.2` is `1.04`. -/
theorem C2_counterexample :
    (classify_contract C2px constBE {} c2_contract c2_template "Medicare Timely Filing"
        none).confidence = 26 / 25 ∧
    ¬ (classify_contract C2px constBE {} c2_contract c2_template "Medicare Timely Filing"
        none).confidence ≤ 1 ∧
    (classify_contract C2px constBE {} c2_contract c2_template "Medicare Timely Filing"
        none).match_type = .SEMANTIC ∧
    (∀ x y : Unit, -1 ≤ constBE.cosine x y ∧ constBE.cosine x y ≤ 1) := by
  refine ⟨by rw [c2_classify_eq], ?_, by rw [c2_classify_eq], ?_⟩
  · rw [c2_classify_eq]
    norm_num
  · intro x y
    constructor <;> norm_num [constBE]

theorem foldl_max_le (b : ℚ) : ∀ (xs : List ℚ) (a : ℚ), a ≤ b → (∀ x ∈ xs, x ≤ b) →
    xs.foldl max a ≤ b := by
  intro xs
  induction xs with
  | nil => intro a ha _; simpa using ha
  | cons x xs ih =>
    intro a ha h
    exact ih (max a x) (max_le ha (h x (by simp))) (fun y hy => h y (by simp [hy]))

theorem listMaxQ_le (l : List ℚ) (b : ℚ) (hb : 0 ≤ b) (h : ∀ x ∈ l, x ≤ b) :
    listMaxQ l ≤ b := by
  cases l with
  | nil => simpa [listMaxQ] using hb
  | cons x xs =>
    exact foldl_max_le b xs x (h x (by simp)) (fun y hy => h y (by simp [hy]))

theorem foldl_add_le (b : ℚ) : ∀ (l : List ℚ) (a : ℚ), (∀ x ∈ l, x ≤ b) →
    l.foldl (· + ·) a ≤ a + l.length * b := by
  intro l
  induction l with
  | nil => intro a _; simp
  | cons x xs ih =>
    intro a h
    have hx : x ≤ b := h x (by simp)
    simp only [List.foldl_cons, List.length_cons]
    refine le_trans (ih (a + x) (fun y hy => h y (by simp [hy]))) ?_
    push_cast
    linarith

theorem foldl_add_nonneg : ∀ (l : List ℚ) (a : ℚ), (∀ x ∈ l, 0 ≤ x) →
    a ≤ l.foldl (· + ·) a := by
  intro l
  induction l with
  | nil => intro a _; simp
  | cons x xs ih =>
    intro a h
    have hx : 0 ≤ x := h x (by simp)
    have := ih (a + x) (fun y hy => h y (by simp [hy]))
    simp only [List.foldl_cons]
    linarith

theorem div_mean_bounds (l : List ℚ) (hne : l ≠ []) (h : ∀ x ∈ l, 0 ≤ x ∧ x ≤ 1) :
    0 ≤ l.foldl (· + ·) 0 / (l.length : ℚ) ∧ l.foldl (· + ·) 0 / (l.length : ℚ) ≤ 1 := by
  have hlen : 0 < (l.length : ℚ) := by exact_mod_cast List.length_pos.mpr hne
  have hub := foldl_add_le 1 l 0 (fun x hx => (h x hx).2)
  have hlb := foldl_add_nonneg l 0 (fun x hx => (h x hx).1)
  refine ⟨div_nonneg hlb hlen.le, ?_⟩
  rw [div_le_one hlen]
  simpa using hub

theorem pm_sec_score_bounds (px : PyStdlib) (p1 p2 : PatternsFound) :
    0 ≤ pm_sec_score px p1 p2 ∧ pm_sec_score px p1 p2 ≤ 1 := by
  rw [pm_sec_score]
  split_ifs <;> norm_num

theorem pm_bul_score_bounds (p1 p2 : PatternsFound) :
    0 ≤ pm_bul_score p1 p2 ∧ pm_bul_score p1 p2 ≤ 1 := by
  rw [pm_bul_score]
  split_ifs <;> norm_num

theorem pm_parity_bounds (l1 l2 : List String) :
    0 ≤ pm_parity l1 l2 ∧ pm_parity l1 l2 ≤ 1 := by
  rw [pm_parity]
  split_ifs <;> norm_num

theorem pm_legal_scores_bounds (p1 p2 : PatternsFound) :
    ∀ x ∈ pm_legal_scores p1 p2, 0 ≤ x ∧ x ≤ 1 := by
  intro x hx
  simp only [pm_legal_scores] at hx
  split_ifs at hx with h1 h2
  · rw [List.mem_singleton] at hx
    subst hx
    have htot : 0 < ((p1.legal_terms.dedup ++
        p2.legal_terms.dedup.filter (fun x => !p1.legal_terms.contains x)).length : ℚ) := by
      exact_mod_cast Nat.pos_of_ne_zero h2
    refine ⟨div_nonneg (by positivity) htot.le, ?_⟩
    rw [div_le_one htot]
    have hle : (p1.legal_terms.dedup.filter (fun x => p2.legal_terms.contains x)).length ≤
        (p1.legal_terms.dedup ++
          p2.legal_terms.dedup.filter (fun x => !p1.legal_terms.contains x)).length := by
      rw [List.length_append]
      exact le_trans (List.length_filter_le _ _) (Nat.le_add_right _ _)
    exact_mod_cast hle
  · cases hx
  · cases hx

theorem pm_structure_bounds (px : PyStdlib) (p1 p2 : PatternsFound) :
    0 ≤ pm_compare_structures px p1 p2 ∧ pm_compare_structures px p1 p2 ≤ 1 := by
  rw [pm_compare_structures]
  rw [if_neg (by simp)]
  apply div_mean_bounds
  · simp
  · intro x hx
    have hx2 : x = pm_sec_score px p1 p2 ∨ x = pm_bul_score p1 p2 ∨
        x ∈ pm_legal_scores p1 p2 ∨ x = pm_parity p1.dates p2.dates ∨
        x = pm_parity p1.monetary p2.monetary ∨
        x = pm_parity p1.time_periods p2.time_periods := by
      simpa using hx
    rcases hx2 with rfl | rfl | h | rfl | rfl | rfl
    · exact pm_sec_score_bounds px p1 p2
    · exact pm_bul_score_bounds p1 p2
    · exact pm_legal_scores_bounds p1 p2 x h
    · exact pm_parity_bounds _ _
    · exact pm_parity_bounds _ _
    · exact pm_parity_bounds _ _

theorem ratio_if_bounds (pl : List String) (f : String → Bool) :
    0 ≤ (if pl.isEmpty then (0 : ℚ) else ((pl.filter f).length : ℚ) / (pl.length : ℚ)) ∧
    (if pl.isEmpty then (0 : ℚ) else ((pl.filter f).length : ℚ) / (pl.length : ℚ)) ≤ 1 := by
  split_ifs with h
  · norm_num
  · have hne : pl ≠ [] := by simpa [List.isEmpty_iff] using h
    have hlen : 0 < (pl.length : ℚ) := by exact_mod_cast List.length_pos.mpr hne
    refine ⟨div_nonneg (by positivity) hlen.le, ?_⟩
    rw [div_le_one hlen]
    exact_mod_cast List.length_filter_le f pl

theorem pm_attribute_bounds (px : PyStdlib) (c t a : String) :
    0 ≤ pm_check_attribute_patterns px c t a ∧ pm_check_attribute_patterns px c t a ≤ 1 := by
  cases hf : attribute_patterns.find? (fun p => p.1 == a) with
  | none =>
    rw [pm_check_attribute_patterns, hf]
    norm_num
  | some pr =>
    obtain ⟨nm, pats⟩ := pr
    rw [pm_check_attribute_patterns, hf]
    obtain ⟨hr0, hr1⟩ := ratio_if_bounds pats.1
      (fun p => (px.search p false false (pyLower c)).isSome)
    obtain ⟨hs0, hs1⟩ := ratio_if_bounds pats.2
      (fun p => (px.search p false false (pyLower c)).isSome)
    constructor <;> simp only [] <;> linarith

theorem pm_table_bounds (px : PyStdlib) (c t : String) :
    0 ≤ pm_compare_table_structures px c t ∧ pm_compare_table_structures px c t ≤ 1 := by
  simp only [pm_compare_table_structures]
  split_ifs with h1 h2 h3 h4
  · norm_num
  · norm_num
  all_goals (
    have hcv : ¬(pm_extract_table_values px c).isEmpty = true := by tauto
    have hcl : (0 : ℚ) < ((pm_extract_table_values px c).length : ℚ) := by
      exact_mod_cast List.length_pos.mpr (by simpa [List.isEmpty_iff] using hcv)
    have htv : ¬(pm_extract_table_values px t).isEmpty = true := by tauto
    have htl : (0 : ℚ) < ((pm_extract_table_values px t).length : ℚ) := by
      exact_mod_cast List.length_pos.mpr (by simpa [List.isEmpty_iff] using htv)
    have hmaxpos : 0 < max ((pm_extract_table_values px c).length : ℚ)
        ((pm_extract_table_values px t).length : ℚ) :=
      lt_of_lt_of_le hcl (le_max_left _ _)
    have hr1 : min ((pm_extract_table_values px c).length : ℚ)
        ((pm_extract_table_values px t).length : ℚ) /
        max ((pm_extract_table_values px c).length : ℚ)
        ((pm_extract_table_values px t).length : ℚ) ≤ 1 := by
      rw [div_le_one hmaxpos]
      exact min_le_max
    have hr0 : 0 ≤ min ((pm_extract_table_values px c).length : ℚ)
        ((pm_extract_table_values px t).length : ℚ) /
        max ((pm_extract_table_values px c).length : ℚ)
        ((pm_extract_table_values px t).length : ℚ) :=
      div_nonneg (le_min hcl.le htl.le) hmaxpos.le
    constructor <;> linarith)

theorem pm_score_bounds (px : PyStdlib) (c t a : String) (ctx : Option Unit) :
    0 ≤ (pm_match px c t a ctx).1 ∧ (pm_match px c t a ctx).1 ≤ 1 := by
  obtain ⟨hs0, hs1⟩ := pm_structure_bounds px (pm_extract_patterns px c a)
    (pm_extract_patterns px t a)
  obtain ⟨ha0, ha1⟩ := pm_attribute_bounds px c t a
  obtain ⟨ht0, ht1⟩ := pm_table_bounds px c t
  simp only [pm_match]
  split_ifs with h1 h2 <;> constructor <;> linarith

theorem fm_score_le_one (px : PyStdlib) (c t a : String) : (fm_match px c t a).1 ≤ 1 := by
  simp only [fm_match]
  exact min_le_left _ _

theorem sm_keyword_bounds (c t a : String) :
    0 ≤ sm_keyword_score c t a ∧ sm_keyword_score c t a ≤ 6 / 5 := by
  cases hf : attribute_keywords.find? (fun p => p.1 == a) with
  | none =>
    rw [sm_keyword_score, hf]
    norm_num
  | some pr =>
    obtain ⟨nm, kws⟩ := pr
    simp only [sm_keyword_score, hf]
    by_cases hk : kws.isEmpty = true
    · rw [if_pos hk]
      norm_num
    · rw [if_neg hk]
      have hne : kws ≠ [] := by simpa [List.isEmpty_iff] using hk
      have hlen : (0 : ℚ) < (kws.length : ℚ) := by
        exact_mod_cast List.length_pos.mpr hne
      set A := (((kws.filter (fun k => strContains (pyLower c) (pyLower k))).length : ℕ) : ℚ)
        / ((kws.length : ℕ) : ℚ) with hA
      set B := (((kws.filter (fun k => strContains (pyLower t) (pyLower k))).length : ℕ) : ℚ)
        / ((kws.length : ℕ) : ℚ) with hB
      have hA0 : 0 ≤ A := by rw [hA]; positivity
      have hA1 : A ≤ 1 := by
        rw [hA, div_le_one hlen]
        exact_mod_cast List.length_filter_le _ kws
      have hB0 : 0 ≤ B := by rw [hB]; positivity
      have hB1 : B ≤ 1 := by
        rw [hB, div_le_one hlen]
        exact_mod_cast List.length_filter_le _ kws
      split_ifs with hb
      · have hmax : 0 < max A B := lt_of_lt_of_le hb.1 (le_max_left _ _)
        have h1 : min A B / max A B ≤ 1 := by
          rw [div_le_one hmax]
          exact min_le_max
        have h0 : 0 ≤ min A B / max A B := div_nonneg (le_min hb.1.le hb.2.le) hmax.le
        constructor <;> linarith
      · constructor <;> linarith

theorem sm_cmax_le_one {E : Type} (be : EmbedBackend E)
    (hcos : ∀ x y, be.cosine x y ≤ 1) (e1 e2 : List E) :
    (sm_chunk_similarities be e1 e2).max_similarity ≤ 1 := by
  rw [sm_chunk_similarities]
  split_ifs with h
  · norm_num
  · exact listMaxQ_le _ 1 zero_le_one (fun x hx => by
      obtain ⟨y, hy, rfl⟩ := List.mem_map.mp hx
      exact listMaxQ_le _ 1 zero_le_one (fun z hz => by
        obtain ⟨w, hw, rfl⟩ := List.mem_map.mp hz
        exact hcos y w))

theorem sm_doc_le_one {E : Type} (be : EmbedBackend E)
    (hcos : ∀ x y, be.cosine x y ≤ 1) (e1 e2 : List E) :
    sm_document_similarity be e1 e2 ≤ 1 := by
  rw [sm_document_similarity]
  split_ifs with h
  · norm_num
  · exact hcos _ _

theorem sm_score_le {E : Type} (px : PyStdlib) (be : EmbedBackend E)
    (hcos : ∀ x y, be.cosine x y ≤ 1) (c t a : String) :
    (sm_match px be c t a).1 ≤ 26 / 25 := by
  have h1 := sm_cmax_le_one be hcos (be.encode ("contract_" ++ a) (sm_chunk_text px c))
    (be.encode ("template_" ++ a) (sm_chunk_text px t))
  have h2 := sm_doc_le_one be hcos (be.encode ("contract_" ++ a) (sm_chunk_text px c))
    (be.encode ("template_" ++ a) (sm_chunk_text px t))
  have h3 := (sm_keyword_bounds c t a).2
  simp only [sm_match]
  linarith

theorem enhance_conf_cases (px : PyStdlib) (text a mt : String) (s : ℚ) :
    (enhance_classification px text a mt s).2.1 = 0 ∨
    (enhance_classification px text a mt s).2.1 = min 1 (s * (11 / 10)) ∨
    (enhance_classification px text a mt s).2.1 = s := by
  simp only [enhance_classification]
  split_ifs <;> simp

theorem fuzzy_accept_of_std (px : PyStdlib) (cfg : ClassifierConfig) (c t a : String)
    (h : (cc_try_fuzzy_match px cfg c t a).is_standard = true) :
    cfg.fuzzy_threshold ≤ (fm_match px c t a).1 := by
  simp only [cc_try_fuzzy_match] at h
  split_ifs at h <;> simp at h <;> exact h

theorem fuzzy_conf_cases (px : PyStdlib) (cfg : ClassifierConfig) (c t a : String) :
    (cc_try_fuzzy_match px cfg c t a).confidence
        = (enhance_classification px c a "fuzzy" ((fm_match px c t a).1)).2.1 ∨
    (cc_try_fuzzy_match px cfg c t a).confidence = (fm_match px c t a).1 := by
  simp only [cc_try_fuzzy_match]
  split_ifs <;> simp

theorem fuzzy_conf_bounds (px : PyStdlib) (cfg : ClassifierConfig) (c t a : String)
    (hθ : 0 ≤ cfg.fuzzy_threshold)
    (hstd : (cc_try_fuzzy_match px cfg c t a).is_standard = true) :
    0 ≤ (cc_try_fuzzy_match px cfg c t a).confidence ∧
    (cc_try_fuzzy_match px cfg c t a).confidence ≤ 1 := by
  have hacc := fuzzy_accept_of_std px cfg c t a hstd
  have hs0 : 0 ≤ (fm_match px c t a).1 := le_trans hθ hacc
  have hub := fm_score_le_one px c t a
  rcases fuzzy_conf_cases px cfg c t a with h | h <;> rw [h]
  · rcases enhance_conf_cases px c a "fuzzy" ((fm_match px c t a).1) with he | he | he <;>
      rw [he]
    · exact ⟨le_refl 0, zero_le_one⟩
    · exact ⟨le_min zero_le_one (by nlinarith), min_le_left _ _⟩
    · exact ⟨hs0, hub⟩
  · exact ⟨hs0, hub⟩

theorem semantic_accept_of_std {E : Type} (px : PyStdlib) (be : EmbedBackend E)
    (cfg : ClassifierConfig) (c t a : String)
    (h : (cc_try_semantic_match px be cfg c t a).is_standard = true) :
    cfg.semantic_threshold ≤ (sm_match px be c t a).1 := by
  simp only [cc_try_semantic_match] at h
  split_ifs at h <;> simp at h <;> exact h

theorem semantic_conf_cases {E : Type} (px : PyStdlib) (be : EmbedBackend E)
    (cfg : ClassifierConfig) (c t a : String) :
    (cc_try_semantic_match px be cfg c t a).confidence
        = (enhance_classification px c a "semantic" ((sm_match px be c t a).1)).2.1 ∨
    (cc_try_semantic_match px be cfg c t a).confidence = (sm_match px be c t a).1 := by
  simp only [cc_try_semantic_match]
  split_ifs <;> simp

theorem semantic_conf_bounds {E : Type} (px : PyStdlib) (be : EmbedBackend E)
    (cfg : ClassifierConfig) (c t a : String)
    (hθ : 0 ≤ cfg.semantic_threshold) (hcos : ∀ x y, be.cosine x y ≤ 1)
    (hstd : (cc_try_semantic_match px be cfg c t a).is_standard = true) :
    0 ≤ (cc_try_semantic_match px be cfg c t a).confidence ∧
    (cc_try_semantic_match px be cfg c t a).confidence ≤ 26 / 25 := by
  have hacc := semantic_accept_of_std px be cfg c t a hstd
  have hs0 : 0 ≤ (sm_match px be c t a).1 := le_trans hθ hacc
  have hub := sm_score_le px be hcos c t a
  rcases semantic_conf_cases px be cfg c t a with h | h <;> rw [h]
  · rcases enhance_conf_cases px c a "semantic" ((sm_match px be c t a).1) with he | he |
        he <;> rw [he]
    · exact ⟨le_refl 0, by norm_num⟩
    · exact ⟨le_min zero_le_one (by nlinarith), le_trans (min_le_left _ _) (by norm_num)⟩
    · exact ⟨hs0, hub⟩
  · exact ⟨hs0, hub⟩

theorem regex_conf_eq (px : PyStdlib) (cfg : ClassifierConfig) (c t a : String)
    (ctx : Option Unit) :
    (cc_try_regex_match px cfg c t a ctx).confidence = (pm_match px c t a ctx).1 := rfl

theorem exact_conf_bounds (px : PyStdlib) (c t a : String) :
    0 ≤ (cc_try_exact_match px c t a).confidence ∧
    (cc_try_exact_match px c t a).confidence ≤ 1 := by
  rw [cc_try_exact_match]
  split_ifs <;> norm_num

theorem semantic_match_type {E : Type} (px : PyStdlib) (be : EmbedBackend E)
    (cfg : ClassifierConfig) (c t a : String) :
    (cc_try_semantic_match px be cfg c t a).match_type = .SEMANTIC := by
  simp only [cc_try_semantic_match]
  split_ifs <;> rfl

/-- C2 (amended): for every oracle, every embedding backend whose cosine
similarity is bounded by `1`, and every configuration with non-negative
fuzzy and semantic thresholds, the confidence returned by
`classify_contract` lies in `[0, 26/25]` — not `[0, 1]`: any result whose
match type is not SEMANTIC has confidence at most `1`, but a semantic
acceptance can reach `26/25` because the keyword score ranges up to `1.2`. -/
theorem C2_confidence_bounds {E : Type} (px : PyStdlib) (be : EmbedBackend E)
    (cfg : ClassifierConfig) (c t a : String) (ctx : Option Unit)
    (hf : 0 ≤ cfg.fuzzy_threshold) (hs : 0 ≤ cfg.semantic_threshold)
    (hcos : ∀ x y, be.cosine x y ≤ 1) :
    0 ≤ (classify_contract px be cfg c t a ctx).confidence ∧
    (classify_contract px be cfg c t a ctx).confidence ≤ 26 / 25 ∧
    ((classify_contract px be cfg c t a ctx).match_type ≠ .SEMANTIC →
      (classify_contract px be cfg c t a ctx).confidence ≤ 1) := by
  simp only [classify_contract]
  split_ifs with h0 h1 h2 h3 h4
  · exact ⟨le_refl 0, by norm_num [missingTextResult], fun _ => by norm_num [missingTextResult]⟩
  · obtain ⟨hl, hu⟩ := exact_conf_bounds px c t a
    exact ⟨hl, by linarith, fun _ => hu⟩
  · obtain ⟨hl, hu⟩ := pm_score_bounds px c t a ctx
    rw [regex_conf_eq]
    exact ⟨hl, by linarith, fun _ => hu⟩
  · obtain ⟨hl, hu⟩ := fuzzy_conf_bounds px cfg c t a hf h3
    exact ⟨hl, by linarith, fun _ => hu⟩
  · obtain ⟨hl, hu⟩ := semantic_conf_bounds px be cfg c t a hs hcos h4
    refine ⟨hl, hu, fun hmt => ?_⟩
    exact absurd (semantic_match_type px be cfg c t a) hmt
  · exact ⟨le_refl 0, by norm_num [noMatchResult], fun _ => by norm_num [noMatchResult]⟩

/-- C2 witness: the amended bounds applied to an arbitrary oracle, the
unit backend and the default configuration on concrete texts. -/
theorem C2_witness :
    0 ≤ (classify_contract constPx constBE {} "a" "b" "X" none).confidence ∧
    (classify_contract constPx constBE {} "a" "b" "X" none).confidence ≤ 26 / 25 ∧
    ((classify_contract constPx constBE {} "a" "b" "X" none).match_type ≠ .SEMANTIC →
      (classify_contract constPx constBE {} "a" "b" "X" none).confidence ≤ 1) :=
  C2_confidence_bounds constPx constBE {} "a" "b" "X" none (by norm_num) (by norm_num)
    (fun x y => by norm_num [constBE])

end Spec2Proof
